import Mathlib

/-!
Verification of the `jira_query` issue model (`src/issue_model.rs`).

The source is a set of Rust structs deriving `serde::Deserialize`, each with a
`#[serde(flatten)] extra: Value` catch-all map.  We shallowly embed the JSON
value tree, the serde-derive deserialization semantics for such structs
(declared fields bound by wire name, unknown keys routed into the flattened
`extra` map, missing non-`Option` fields rejected, duplicate declared fields
rejected), and the individual entity structs with their declared field lists in
source order.
-/

set_option maxHeartbeats 1000000

namespace Jira

/-- A JSON document (`serde_json::Value`).  Numbers are restricted to integers,
which covers every numeric field of the model (all are `i32`). -/
inductive Json where
  | null
  | bool (b : Bool)
  | num (n : Int)
  | str (s : String)
  | arr (elems : List Json)
  | obj (entries : List (String × Json))

/-- Structured decode errors.  `missingField` is serde's "missing field"
error, `shapeMismatch` covers serde's invalid-type / invalid-value errors
(the spec's `ShapeMismatch`), and `duplicateField` is serde's duplicate-field
error for a declared key appearing twice. -/
inductive DecodeError where
  | missingField (field : String)
  | shapeMismatch (expected : String)
  | duplicateField (field : String)
deriving DecidableEq, Repr

/-- First-match lookup in an association list of JSON object entries. -/
def lookupJ : List (String × Json) → String → Option Json
  | [], _ => none
  | (k', v) :: rest, k => if k' = k then some v else lookupJ rest k

/-- Option alternative, first value wins. -/
def oElse {α : Type} : Option α → Option α → Option α
  | some a, _ => some a
  | none, b => b

/-- Insert a key into an object map: replace the value in place if the key is
present (later occurrence wins, as in `serde_json::Map::insert`), else append. -/
def insertKey : List (String × Json) → String → Json → List (String × Json)
  | [], k, v => [(k, v)]
  | (k', v') :: rest, k, v =>
    if k' = k then (k, v) :: rest else (k', v') :: insertKey rest k v

/-- Whether a key occurs in an object entry list. -/
def keyMem (l : List (String × Json)) (k : String) : Bool :=
  (lookupJ l k).isSome

/-- The keys of an object entry list are pairwise distinct. -/
def NodupKeys (l : List (String × Json)) : Prop :=
  (l.map Prod.fst).Nodup

instance (l : List (String × Json)) : Decidable (NodupKeys l) := by
  unfold NodupKeys; infer_instance

/-- Core of the serde-derive `visit_map` loop for a struct with a flattened
catch-all: walk the object's entries in order; an entry whose key is declared
is recorded (rejecting a duplicate declared key), every other entry is routed
into the overflow map. -/
def splitFieldsAux (declared : List String) :
    List (String × Json) → List (String × Json) → List (String × Json) →
    Except DecodeError (List (String × Json) × List (String × Json))
  | seen, extra, [] => .ok (seen, extra)
  | seen, extra, (k, v) :: rest =>
    if declared.contains k then
      if (lookupJ seen k).isSome then .error (.duplicateField k)
      else splitFieldsAux declared (seen ++ [(k, v)]) extra rest
    else splitFieldsAux declared seen (insertKey extra k v) rest

/-- Split an object's entries into the declared fields and the overflow map. -/
def splitFields (declared : List String) (entries : List (String × Json)) :
    Except DecodeError (List (String × Json) × List (String × Json)) :=
  splitFieldsAux declared [] [] entries

/-- Shared shape of every serde-derived `Deserialize` impl in the source: a
struct with declared fields plus a `#[serde(flatten)] extra` map deserializes
only from a JSON object; declared entries are bound by `core`, the remaining
entries become the `extra` overflow map (`withExtra` stores them in the
record). -/
def decodeStruct {β α : Type} (name : String) (declared : List String)
    (core : List (String × Json) → Except DecodeError β)
    (withExtra : β → List (String × Json) → α) (j : Json) :
    Except DecodeError α :=
  match j with
  | .obj entries =>
    match splitFields declared entries with
    | .error e => .error e
    | .ok (seen, extra) =>
      match core seen with
      | .error e => .error e
      | .ok b => .ok (withExtra b extra)
  | _ => .error (.shapeMismatch ("struct " ++ name))

/-- Bind a required declared field: its key must have occurred. -/
def reqWith {α : Type} (seen : List (String × Json)) (name : String)
    (f : Json → Except DecodeError α) : Except DecodeError α :=
  match lookupJ seen name with
  | some v => f v
  | none => .error (.missingField name)

/-- Bind an `Option` declared field: serde populates `None` both when the key
is missing and when its value is an explicit JSON null. -/
def optWith {α : Type} (seen : List (String × Json)) (name : String)
    (f : Json → Except DecodeError α) : Except DecodeError (Option α) :=
  match lookupJ seen name with
  | none => .ok none
  | some .null => .ok none
  | some v => (f v).map some

/-- Decode a JSON string (`String` field). -/
def decodeString : Json → Except DecodeError String
  | .str s => .ok s
  | _ => .error (.shapeMismatch "a string")

/-- Decode a JSON boolean (`bool` field). -/
def decodeBool : Json → Except DecodeError Bool
  | .bool b => .ok b
  | _ => .error (.shapeMismatch "a boolean")

/-- Decode an `i32` field: an integer within the 32-bit signed range. -/
def decodeI32 : Json → Except DecodeError Int
  | .num n =>
    if -(2 ^ 31) ≤ n ∧ n < 2 ^ 31 then .ok n else .error (.shapeMismatch "i32")
  | _ => .error (.shapeMismatch "i32")

/-- Decode each element of a JSON array in order, stopping at the first
failing element. -/
def decodeElems {α : Type} (f : Json → Except DecodeError α) :
    List Json → Except DecodeError (List α)
  | [] => .ok []
  | x :: xs =>
    match f x with
    | .error e => .error e
    | .ok a =>
      match decodeElems f xs with
      | .error e => .error e
      | .ok as => .ok (a :: as)

/-- Decode a `Vec<T>` field: only a JSON array is accepted (in particular an
explicit null is a shape error, collections are never null). -/
def decodeVec {α : Type} (f : Json → Except DecodeError α) :
    Json → Except DecodeError (List α)
  | .arr xs => decodeElems f xs
  | _ => .error (.shapeMismatch "a sequence")

/-- Value of a decimal digit character. -/
def digitVal (c : Char) : Nat := c.toNat - 48

/-- Read exactly `n` decimal digits, accumulating their value. -/
def readNat : Nat → Nat → List Char → Option (Nat × List Char)
  | 0, acc, cs => some (acc, cs)
  | n + 1, acc, c :: cs =>
    if c.isDigit then readNat n (acc * 10 + digitVal c) cs else none
  | _ + 1, _, [] => none

/-- Consume one expected character. -/
def expectChar (c : Char) : List Char → Option (List Char)
  | c' :: cs => if c' = c then some cs else none
  | [] => none

/-- Gregorian leap year. -/
def isLeap (y : Nat) : Bool :=
  y % 4 == 0 && (y % 100 != 0 || y % 400 == 0)

/-- Number of days in a month. -/
def daysInMonth (y m : Nat) : Nat :=
  if m = 2 then (if isLeap y then 29 else 28)
  else if m = 4 ∨ m = 6 ∨ m = 9 ∨ m = 11 then 30
  else 31

/-- A calendar date without time of day (`chrono::NaiveDate`). -/
structure NaiveDate where
  year : Nat
  month : Nat
  day : Nat
deriving DecidableEq, Repr

/-- A timestamp with date, time-of-day and UTC offset
(`chrono::DateTime<Utc>`), kept as its parsed components. -/
structure DateTimeUtc where
  year : Nat
  month : Nat
  day : Nat
  hour : Nat
  minute : Nat
  second : Nat
  nanos : Nat
  offsetMinutes : Int
deriving DecidableEq, Repr

/-- Read a `YYYY-MM-DD` date, validating the calendar ranges. -/
def readDate (cs : List Char) : Option (NaiveDate × List Char) := do
  let (y, cs) ← readNat 4 0 cs
  let cs ← expectChar '-' cs
  let (m, cs) ← readNat 2 0 cs
  let cs ← expectChar '-' cs
  let (d, cs) ← readNat 2 0 cs
  if 1 ≤ m ∧ m ≤ 12 ∧ 1 ≤ d ∧ d ≤ daysInMonth y m then
    some (⟨y, m, d⟩, cs)
  else
    none

/-- Modelled from the spec: the calendar-date-only temporal contract (§4.2),
"a string of the form year-month-day with no time or offset component"; the
parsing itself lives in the external `chrono` crate (`NaiveDate` from
`%Y-%m-%d`), not in `src/`.  The whole input must be consumed, so a full
timestamp string is rejected rather than truncated. -/
def parseNaiveDate (s : String) : Option NaiveDate := do
  let (d, cs) ← readDate s.toList
  match cs with
  | [] => some d
  | _ => none

/-- Read a fractional-seconds suffix, in nanoseconds (at most 9 digits kept). -/
def readFrac (cs : List Char) : Option (Nat × List Char) :=
  match cs with
  | '.' :: rest =>
    let digits := rest.takeWhile Char.isDigit
    let rest' := rest.dropWhile Char.isDigit
    if digits.isEmpty then none
    else
      let kept := digits.take 9
      let pad := 9 - kept.length
      some ((kept.foldl (fun a c => a * 10 + digitVal c) 0) * 10 ^ pad, rest')
  | _ => some (0, cs)

/-- Read a UTC offset: `Z`/`z` or `±HH:MM`, as signed minutes. -/
def readOffset (cs : List Char) : Option (Int × List Char) :=
  match cs with
  | 'Z' :: rest => some (0, rest)
  | 'z' :: rest => some (0, rest)
  | '+' :: rest => do
    let (h, rest) ← readNat 2 0 rest
    let rest ← expectChar ':' rest
    let (m, rest) ← readNat 2 0 rest
    if h ≤ 23 ∧ m ≤ 59 then some ((h * 60 + m : Nat), rest) else none
  | '-' :: rest => do
    let (h, rest) ← readNat 2 0 rest
    let rest ← expectChar ':' rest
    let (m, rest) ← readNat 2 0 rest
    if h ≤ 23 ∧ m ≤ 59 then some (-((h * 60 + m : Nat) : Int), rest) else none
  | _ => none

/-- Modelled from the spec: the full-timestamp temporal contract (§4.2),
"a string in a fixed wire format carrying date, time, and UTC offset"
(RFC 3339, as parsed by the external `chrono` crate for `DateTime<Utc>`,
which is not code in `src/`).  A date-only string is rejected. -/
def parseTimestamp (s : String) : Option DateTimeUtc := do
  let (d, cs) ← readDate s.toList
  let cs ←
    match cs with
    | 'T' :: rest => some rest
    | 't' :: rest => some rest
    | _ => none
  let (h, cs) ← readNat 2 0 cs
  let cs ← expectChar ':' cs
  let (mi, cs) ← readNat 2 0 cs
  let cs ← expectChar ':' cs
  let (sec, cs) ← readNat 2 0 cs
  let (ns, cs) ← readFrac cs
  let (off, cs) ← readOffset cs
  match cs with
  | [] =>
    if h ≤ 23 ∧ mi ≤ 59 ∧ sec ≤ 59 then
      some ⟨d.year, d.month, d.day, h, mi, sec, ns, off⟩
    else
      none
  | _ => none

/-- Decode a full-timestamp field (`DateTime<Utc>`): only a string in the
timestamp wire format is accepted. -/
def decodeDateTime : Json → Except DecodeError DateTimeUtc
  | .str s =>
    match parseTimestamp s with
    | some t => .ok t
    | none => .error (.shapeMismatch "an RFC 3339 timestamp")
  | _ => .error (.shapeMismatch "a date-time string")

/-- Decode a date-only field (`NaiveDate`): only a `YYYY-MM-DD` string is
accepted; a full timestamp string is a shape error. -/
def decodeNaiveDate : Json → Except DecodeError NaiveDate
  | .str s =>
    match parseNaiveDate s with
    | some d => .ok d
    | none => .error (.shapeMismatch "a YYYY-MM-DD date")
  | _ => .error (.shapeMismatch "a date string")

/-- Remove every entry with the given key. -/
def eraseKey (l : List (String × Json)) (k : String) : List (String × Json) :=
  l.filter (fun p => !(p.fst == k))

/-- Replace the value at a key (or append the pair). -/
def setKey (l : List (String × Json)) (k : String) (v : Json) :
    List (String × Json) :=
  insertKey l k v

/-- Whether a decode succeeded. -/
def isOkB {α : Type} : Except DecodeError α → Bool
  | .ok _ => true
  | .error _ => false

/-- Whether a decode failed. -/
def isErrB {α : Type} : Except DecodeError α → Bool
  | .ok _ => false
  | .error _ => true

/-- Whether a decode failed with `missingField` for the given key. -/
def isMissingE {α : Type} (k : String) : Except DecodeError α → Bool
  | .error (.missingField k') => k == k'
  | _ => false

/-- Whether a decode failed with a `shapeMismatch` error. -/
def isShapeE {α : Type} : Except DecodeError α → Bool
  | .error (.shapeMismatch _) => true
  | _ => false

/-- Whether a decode succeeded with a value satisfying the predicate. -/
def okSat {α : Type} : Except DecodeError α → (α → Bool) → Bool
  | .ok a, p => p a
  | .error _, _ => false

/-- A Jira avatar in several different sizes (struct `AvatarUrls`). -/
structure AvatarUrls where
  xsmall : String
  small : String
  medium : String
  full : String
  extra : List (String × Json)

/-- Wire names of the declared fields of `AvatarUrls`, in source order. -/
def AvatarUrls.declared : List String := ["16x16", "24x24", "32x32", "48x48"]

/-- Declared-field decoding for `AvatarUrls`. -/
def AvatarUrls.core (seen : List (String × Json)) :
    Except DecodeError AvatarUrls := do
  let xsmall ← reqWith seen "16x16" decodeString
  let small ← reqWith seen "24x24" decodeString
  let medium ← reqWith seen "32x32" decodeString
  let full ← reqWith seen "48x48" decodeString
  pure { xsmall, small, medium, full, extra := [] }

/-- Store the overflow map of `AvatarUrls`. -/
def AvatarUrls.withExtra (b : AvatarUrls) (e : List (String × Json)) :
    AvatarUrls :=
  { b with extra := e }

/-- Deserialize an `AvatarUrls`. -/
def decodeAvatarUrls : Json → Except DecodeError AvatarUrls :=
  decodeStruct "AvatarUrls" AvatarUrls.declared AvatarUrls.core
    AvatarUrls.withExtra

/-- The progress of a Jira issue (struct `Progress`). -/
structure Progress where
  progress : Int
  total : Int
  extra : List (String × Json)

/-- Wire names of the declared fields of `Progress`, in source order. -/
def Progress.declared : List String := ["progress", "total"]

/-- Declared-field decoding for `Progress`. -/
def Progress.core (seen : List (String × Json)) :
    Except DecodeError Progress := do
  let progress ← reqWith seen "progress" decodeI32
  let total ← reqWith seen "total" decodeI32
  pure { progress, total, extra := [] }

/-- Store the overflow map of `Progress`. -/
def Progress.withExtra (b : Progress) (e : List (String × Json)) : Progress :=
  { b with extra := e }

/-- Deserialize a `Progress`. -/
def decodeProgress : Json → Except DecodeError Progress :=
  decodeStruct "Progress" Progress.declared Progress.core Progress.withExtra

/-- The visibility of a Jira issue (struct `Visibility`). -/
structure Visibility where
  type : String
  value : String
  extra : List (String × Json)

/-- Wire names of the declared fields of `Visibility`, in source order. -/
def Visibility.declared : List String := ["type", "value"]

/-- Declared-field decoding for `Visibility`. -/
def Visibility.core (seen : List (String × Json)) :
    Except DecodeError Visibility := do
  let type ← reqWith seen "type" decodeString
  let value ← reqWith seen "value" decodeString
  pure { type, value, extra := [] }

/-- Store the overflow map of `Visibility`. -/
def Visibility.withExtra (b : Visibility) (e : List (String × Json)) :
    Visibility :=
  { b with extra := e }

/-- Deserialize a `Visibility`. -/
def decodeVisibility : Json → Except DecodeError Visibility :=
  decodeStruct "Visibility" Visibility.declared Visibility.core
    Visibility.withExtra

/-- The category of a Jira issue status (struct `StatusCategory`). -/
structure StatusCategory where
  color_name : String
  id : Int
  key : String
  name : String
  self_link : String
  extra : List (String × Json)

/-- Wire names of the declared fields of `StatusCategory`, in source order. -/
def StatusCategory.declared : List String :=
  ["colorName", "id", "key", "name", "self"]

/-- Declared-field decoding for `StatusCategory`. -/
def StatusCategory.core (seen : List (String × Json)) :
    Except DecodeError StatusCategory := do
  let color_name ← reqWith seen "colorName" decodeString
  let id ← reqWith seen "id" decodeI32
  let key ← reqWith seen "key" decodeString
  let name ← reqWith seen "name" decodeString
  let self_link ← reqWith seen "self" decodeString
  pure { color_name, id, key, name, self_link, extra := [] }

/-- Store the overflow map of `StatusCategory`. -/
def StatusCategory.withExtra (b : StatusCategory) (e : List (String × Json)) :
    StatusCategory :=
  { b with extra := e }

/-- Deserialize a `StatusCategory`. -/
def decodeStatusCategory : Json → Except DecodeError StatusCategory :=
  decodeStruct "StatusCategory" StatusCategory.declared StatusCategory.core
    StatusCategory.withExtra

/-- The Jira issue status (struct `Status`). -/
structure Status where
  description : String
  icon_url : String
  id : String
  name : String
  status_category : StatusCategory
  self_link : String
  extra : List (String × Json)

/-- Wire names of the declared fields of `Status`, in source order. -/
def Status.declared : List String :=
  ["description", "iconUrl", "id", "name", "statusCategory", "self"]

/-- Declared-field decoding for `Status`. -/
def Status.core (seen : List (String × Json)) : Except DecodeError Status := do
  let description ← reqWith seen "description" decodeString
  let icon_url ← reqWith seen "iconUrl" decodeString
  let id ← reqWith seen "id" decodeString
  let name ← reqWith seen "name" decodeString
  let status_category ← reqWith seen "statusCategory" decodeStatusCategory
  let self_link ← reqWith seen "self" decodeString
  pure { description, icon_url, id, name, status_category, self_link,
         extra := [] }

/-- Store the overflow map of `Status`. -/
def Status.withExtra (b : Status) (e : List (String × Json)) : Status :=
  { b with extra := e }

/-- Deserialize a `Status`. -/
def decodeStatus : Json → Except DecodeError Status :=
  decodeStruct "Status" Status.declared Status.core Status.withExtra

/-- The resolution of a Jira issue when it is closed (struct `Resolution`). -/
structure Resolution where
  description : String
  id : String
  name : String
  self_link : String
  extra : List (String × Json)

/-- Wire names of the declared fields of `Resolution`, in source order. -/
def Resolution.declared : List String := ["description", "id", "name", "self"]

/-- Declared-field decoding for `Resolution`. -/
def Resolution.core (seen : List (String × Json)) :
    Except DecodeError Resolution := do
  let description ← reqWith seen "description" decodeString
  let id ← reqWith seen "id" decodeString
  let name ← reqWith seen "name" decodeString
  let self_link ← reqWith seen "self" decodeString
  pure { description, id, name, self_link, extra := [] }

/-- Store the overflow map of `Resolution`. -/
def Resolution.withExtra (b : Resolution) (e : List (String × Json)) :
    Resolution :=
  { b with extra := e }

/-- Deserialize a `Resolution`. -/
def decodeResolution : Json → Except DecodeError Resolution :=
  decodeStruct "Resolution" Resolution.declared Resolution.core
    Resolution.withExtra

/-- The type of a Jira issue (struct `IssueType`). -/
structure IssueType where
  avatar_id : Int
  description : String
  icon_url : String
  id : String
  name : String
  subtask : Bool
  self_link : String
  extra : List (String × Json)

/-- Wire names of the declared fields of `IssueType`, in source order. -/
def IssueType.declared : List String :=
  ["avatarId", "description", "iconUrl", "id", "name", "subtask", "self"]

/-- Declared-field decoding for `IssueType`. -/
def IssueType.core (seen : List (String × Json)) :
    Except DecodeError IssueType := do
  let avatar_id ← reqWith seen "avatarId" decodeI32
  let description ← reqWith seen "description" decodeString
  let icon_url ← reqWith seen "iconUrl" decodeString
  let id ← reqWith seen "id" decodeString
  let name ← reqWith seen "name" decodeString
  let subtask ← reqWith seen "subtask" decodeBool
  let self_link ← reqWith seen "self" decodeString
  pure { avatar_id, description, icon_url, id, name, subtask, self_link,
         extra := [] }

/-- Store the overflow map of `IssueType`. -/
def IssueType.withExtra (b : IssueType) (e : List (String × Json)) :
    IssueType :=
  { b with extra := e }

/-- Deserialize an `IssueType`. -/
def decodeIssueType : Json → Except DecodeError IssueType :=
  decodeStruct "IssueType" IssueType.declared IssueType.core
    IssueType.withExtra

/-- The category of a Jira project (struct `ProjectCategory`). -/
structure ProjectCategory where
  description : String
  id : String
  name : String
  self_link : String
  extra : List (String × Json)

/-- Wire names of the declared fields of `ProjectCategory`, in source order. -/
def ProjectCategory.declared : List String :=
  ["description", "id", "name", "self"]

/-- Declared-field decoding for `ProjectCategory`. -/
def ProjectCategory.core (seen : List (String × Json)) :
    Except DecodeError ProjectCategory := do
  let description ← reqWith seen "description" decodeString
  let id ← reqWith seen "id" decodeString
  let name ← reqWith seen "name" decodeString
  let self_link ← reqWith seen "self" decodeString
  pure { description, id, name, self_link, extra := [] }

/-- Store the overflow map of `ProjectCategory`. -/
def ProjectCategory.withExtra (b : ProjectCategory)
    (e : List (String × Json)) : ProjectCategory :=
  { b with extra := e }

/-- Deserialize a `ProjectCategory`. -/
def decodeProjectCategory : Json → Except DecodeError ProjectCategory :=
  decodeStruct "ProjectCategory" ProjectCategory.declared ProjectCategory.core
    ProjectCategory.withExtra

/-- A project namespace that groups Jira issues (struct `Project`). -/
structure Project where
  id : String
  key : String
  name : String
  project_type_key : String
  project_category : ProjectCategory
  avatar_urls : AvatarUrls
  self_link : String
  extra : List (String × Json)

/-- Wire names of the declared fields of `Project`, in source order. -/
def Project.declared : List String :=
  ["id", "key", "name", "projectTypeKey", "projectCategory", "avatarUrls",
   "self"]

/-- Declared-field decoding for `Project`. -/
def Project.core (seen : List (String × Json)) :
    Except DecodeError Project := do
  let id ← reqWith seen "id" decodeString
  let key ← reqWith seen "key" decodeString
  let name ← reqWith seen "name" decodeString
  let project_type_key ← reqWith seen "projectTypeKey" decodeString
  let project_category ← reqWith seen "projectCategory" decodeProjectCategory
  let avatar_urls ← reqWith seen "avatarUrls" decodeAvatarUrls
  let self_link ← reqWith seen "self" decodeString
  pure { id, key, name, project_type_key, project_category, avatar_urls,
         self_link, extra := [] }

/-- Store the overflow map of `Project`. -/
def Project.withExtra (b : Project) (e : List (String × Json)) : Project :=
  { b with extra := e }

/-- Deserialize a `Project`. -/
def decodeProject : Json → Except DecodeError Project :=
  decodeStruct "Project" Project.declared Project.core Project.withExtra

/-- The priority of a Jira issue (struct `Priority`). -/
structure Priority where
  icon_url : String
  id : String
  name : String
  self_link : String
  extra : List (String × Json)

/-- Wire names of the declared fields of `Priority`, in source order. -/
def Priority.declared : List String := ["iconUrl", "id", "name", "self"]

/-- Declared-field decoding for `Priority`. -/
def Priority.core (seen : List (String × Json)) :
    Except DecodeError Priority := do
  let icon_url ← reqWith seen "iconUrl" decodeString
  let id ← reqWith seen "id" decodeString
  let name ← reqWith seen "name" decodeString
  let self_link ← reqWith seen "self" decodeString
  pure { icon_url, id, name, self_link, extra := [] }

/-- Store the overflow map of `Priority`. -/
def Priority.withExtra (b : Priority) (e : List (String × Json)) : Priority :=
  { b with extra := e }

/-- Deserialize a `Priority`. -/
def decodePriority : Json → Except DecodeError Priority :=
  decodeStruct "Priority" Priority.declared Priority.core Priority.withExtra

/-- The component of a Jira issue (struct `Component`). -/
structure Component where
  description : Option String
  id : String
  name : String
  self_link : String
  extra : List (String × Json)

/-- Wire names of the declared fields of `Component`, in source order. -/
def Component.declared : List String := ["description", "id", "name", "self"]

/-- Declared-field decoding for `Component`. -/
def Component.core (seen : List (String × Json)) :
    Except DecodeError Component := do
  let description ← optWith seen "description" decodeString
  let id ← reqWith seen "id" decodeString
  let name ← reqWith seen "name" decodeString
  let self_link ← reqWith seen "self" decodeString
  pure { description, id, name, self_link, extra := [] }

/-- Store the overflow map of `Component`. -/
def Component.withExtra (b : Component) (e : List (String × Json)) :
    Component :=
  { b with extra := e }

/-- Deserialize a `Component`. -/
def decodeComponent : Json → Except DecodeError Component :=
  decodeStruct "Component" Component.declared Component.core
    Component.withExtra

/-- Users watching a Jira issue (struct `Watches`). -/
structure Watches where
  is_watching : Bool
  watch_count : Int
  self_link : String
  extra : List (String × Json)

/-- Wire names of the declared fields of `Watches`, in source order. -/
def Watches.declared : List String := ["isWatching", "watchCount", "self"]

/-- Declared-field decoding for `Watches`. -/
def Watches.core (seen : List (String × Json)) :
    Except DecodeError Watches := do
  let is_watching ← reqWith seen "isWatching" decodeBool
  let watch_count ← reqWith seen "watchCount" decodeI32
  let self_link ← reqWith seen "self" decodeString
  pure { is_watching, watch_count, self_link, extra := [] }

/-- Store the overflow map of `Watches`. -/
def Watches.withExtra (b : Watches) (e : List (String × Json)) : Watches :=
  { b with extra := e }

/-- Deserialize a `Watches`. -/
def decodeWatches : Json → Except DecodeError Watches :=
  decodeStruct "Watches" Watches.declared Watches.core Watches.withExtra

/-- The votes for a Jira issue (struct `Votes`). -/
structure Votes where
  has_voted : Bool
  votes : Int
  self_link : String
  extra : List (String × Json)

/-- Wire names of the declared fields of `Votes`, in source order. -/
def Votes.declared : List String := ["hasVoted", "votes", "self"]

/-- Declared-field decoding for `Votes`. -/
def Votes.core (seen : List (String × Json)) : Except DecodeError Votes := do
  let has_voted ← reqWith seen "hasVoted" decodeBool
  let votes ← reqWith seen "votes" decodeI32
  let self_link ← reqWith seen "self" decodeString
  pure { has_voted, votes, self_link, extra := [] }

/-- Store the overflow map of `Votes`. -/
def Votes.withExtra (b : Votes) (e : List (String × Json)) : Votes :=
  { b with extra := e }

/-- Deserialize a `Votes`. -/
def decodeVotes : Json → Except DecodeError Votes :=
  decodeStruct "Votes" Votes.declared Votes.core Votes.withExtra

/-- The representation of a Jira user account (struct `User`). -/
structure User where
  active : Bool
  display_name : String
  email_address : Option String
  key : String
  name : String
  time_zone : String
  avatar_urls : AvatarUrls
  self_link : String
  extra : List (String × Json)

/-- Wire names of the declared fields of `User`, in source order. -/
def User.declared : List String :=
  ["active", "displayName", "emailAddress", "key", "name", "timeZone",
   "avatarUrls", "self"]

/-- Declared-field decoding for `User`. -/
def User.core (seen : List (String × Json)) : Except DecodeError User := do
  let active ← reqWith seen "active" decodeBool
  let display_name ← reqWith seen "displayName" decodeString
  let email_address ← optWith seen "emailAddress" decodeString
  let key ← reqWith seen "key" decodeString
  let name ← reqWith seen "name" decodeString
  let time_zone ← reqWith seen "timeZone" decodeString
  let avatar_urls ← reqWith seen "avatarUrls" decodeAvatarUrls
  let self_link ← reqWith seen "self" decodeString
  pure { active, display_name, email_address, key, name, time_zone,
         avatar_urls, self_link, extra := [] }

/-- Store the overflow map of `User`. -/
def User.withExtra (b : User) (e : List (String × Json)) : User :=
  { b with extra := e }

/-- Deserialize a `User`. -/
def decodeUser : Json → Except DecodeError User :=
  decodeStruct "User" User.declared User.core User.withExtra

/-- The representation of a Jira product version (struct `Version`).
`release_date` is declared as a calendar date only. -/
structure Version where
  id : String
  description : Option String
  name : String
  archived : Bool
  released : Bool
  release_date : Option NaiveDate
  self_link : String
  extra : List (String × Json)

/-- Wire names of the declared fields of `Version`, in source order. -/
def Version.declared : List String :=
  ["id", "description", "name", "archived", "released", "releaseDate", "self"]

/-- Declared-field decoding for `Version`. -/
def Version.core (seen : List (String × Json)) :
    Except DecodeError Version := do
  let id ← reqWith seen "id" decodeString
  let description ← optWith seen "description" decodeString
  let name ← reqWith seen "name" decodeString
  let archived ← reqWith seen "archived" decodeBool
  let released ← reqWith seen "released" decodeBool
  let release_date ← optWith seen "releaseDate" decodeNaiveDate
  let self_link ← reqWith seen "self" decodeString
  pure { id, description, name, archived, released, release_date, self_link,
         extra := [] }

/-- Store the overflow map of `Version`. -/
def Version.withExtra (b : Version) (e : List (String × Json)) : Version :=
  { b with extra := e }

/-- Deserialize a `Version`. -/
def decodeVersion : Json → Except DecodeError Version :=
  decodeStruct "Version" Version.declared Version.core Version.withExtra

/-- A comment below a Jira issue (struct `Comment`). -/
structure Comment where
  author : User
  body : String
  created : DateTimeUtc
  id : String
  update_author : User
  updated : DateTimeUtc
  visibility : Option Visibility
  self_link : String
  extra : List (String × Json)

/-- Wire names of the declared fields of `Comment`, in source order. -/
def Comment.declared : List String :=
  ["author", "body", "created", "id", "updateAuthor", "updated", "visibility",
   "self"]

/-- Declared-field decoding for `Comment`. -/
def Comment.core (seen : List (String × Json)) :
    Except DecodeError Comment := do
  let author ← reqWith seen "author" decodeUser
  let body ← reqWith seen "body" decodeString
  let created ← reqWith seen "created" decodeDateTime
  let id ← reqWith seen "id" decodeString
  let update_author ← reqWith seen "updateAuthor" decodeUser
  let updated ← reqWith seen "updated" decodeDateTime
  let visibility ← optWith seen "visibility" decodeVisibility
  let self_link ← reqWith seen "self" decodeString
  pure { author, body, created, id, update_author, updated, visibility,
         self_link, extra := [] }

/-- Store the overflow map of `Comment`. -/
def Comment.withExtra (b : Comment) (e : List (String × Json)) : Comment :=
  { b with extra := e }

/-- Deserialize a `Comment`. -/
def decodeComment : Json → Except DecodeError Comment :=
  decodeStruct "Comment" Comment.declared Comment.core Comment.withExtra

/-- A container for all comments below a Jira issue (struct `Comments`). -/
structure Comments where
  comments : List Comment
  max_results : Int
  start_at : Int
  total : Int
  extra : List (String × Json)

/-- Wire names of the declared fields of `Comments`, in source order. -/
def Comments.declared : List String :=
  ["comments", "maxResults", "startAt", "total"]

/-- Declared-field decoding for `Comments`. -/
def Comments.core (seen : List (String × Json)) :
    Except DecodeError Comments := do
  let comments ← reqWith seen "comments" (decodeVec decodeComment)
  let max_results ← reqWith seen "maxResults" decodeI32
  let start_at ← reqWith seen "startAt" decodeI32
  let total ← reqWith seen "total" decodeI32
  pure { comments, max_results, start_at, total, extra := [] }

/-- Store the overflow map of `Comments`. -/
def Comments.withExtra (b : Comments) (e : List (String × Json)) : Comments :=
  { b with extra := e }

/-- Deserialize a `Comments`. -/
def decodeComments : Json → Except DecodeError Comments :=
  decodeStruct "Comments" Comments.declared Comments.core Comments.withExtra

/-- The direction of a link to a Jira issue (struct `IssueLinkType`). -/
structure IssueLinkType where
  id : String
  inward : String
  name : String
  outward : String
  self_link : String
  extra : List (String × Json)

/-- Wire names of the declared fields of `IssueLinkType`, in source order. -/
def IssueLinkType.declared : List String :=
  ["id", "inward", "name", "outward", "self"]

/-- Declared-field decoding for `IssueLinkType`. -/
def IssueLinkType.core (seen : List (String × Json)) :
    Except DecodeError IssueLinkType := do
  let id ← reqWith seen "id" decodeString
  let inward ← reqWith seen "inward" decodeString
  let name ← reqWith seen "name" decodeString
  let outward ← reqWith seen "outward" decodeString
  let self_link ← reqWith seen "self" decodeString
  pure { id, inward, name, outward, self_link, extra := [] }

/-- Store the overflow map of `IssueLinkType`. -/
def IssueLinkType.withExtra (b : IssueLinkType) (e : List (String × Json)) :
    IssueLinkType :=
  { b with extra := e }

/-- Deserialize an `IssueLinkType`. -/
def decodeIssueLinkType : Json → Except DecodeError IssueLinkType :=
  decodeStruct "IssueLinkType" IssueLinkType.declared IssueLinkType.core
    IssueLinkType.withExtra

/-- The reduced fields of a linked Jira issue (struct `LinkedIssueFields`);
`priority` is optional here, unlike in `CondensedFields`. -/
structure LinkedIssueFields where
  issuetype : IssueType
  priority : Option Priority
  status : Status
  summary : String
  extra : List (String × Json)

/-- Wire names of the declared fields of `LinkedIssueFields`, in source
order. -/
def LinkedIssueFields.declared : List String :=
  ["issuetype", "priority", "status", "summary"]

/-- Declared-field decoding for `LinkedIssueFields`. -/
def LinkedIssueFields.core (seen : List (String × Json)) :
    Except DecodeError LinkedIssueFields := do
  let issuetype ← reqWith seen "issuetype" decodeIssueType
  let priority ← optWith seen "priority" decodePriority
  let status ← reqWith seen "status" decodeStatus
  let summary ← reqWith seen "summary" decodeString
  pure { issuetype, priority, status, summary, extra := [] }

/-- Store the overflow map of `LinkedIssueFields`. -/
def LinkedIssueFields.withExtra (b : LinkedIssueFields)
    (e : List (String × Json)) : LinkedIssueFields :=
  { b with extra := e }

/-- Deserialize a `LinkedIssueFields`. -/
def decodeLinkedIssueFields : Json → Except DecodeError LinkedIssueFields :=
  decodeStruct "LinkedIssueFields" LinkedIssueFields.declared
    LinkedIssueFields.core LinkedIssueFields.withExtra

/-- A Jira issue linked from another one (struct `LinkedIssue`). -/
structure LinkedIssue where
  id : String
  key : String
  fields : LinkedIssueFields
  self_link : String
  extra : List (String × Json)

/-- Wire names of the declared fields of `LinkedIssue`, in source order. -/
def LinkedIssue.declared : List String := ["id", "key", "fields", "self"]

/-- Declared-field decoding for `LinkedIssue`. -/
def LinkedIssue.core (seen : List (String × Json)) :
    Except DecodeError LinkedIssue := do
  let id ← reqWith seen "id" decodeString
  let key ← reqWith seen "key" decodeString
  let fields ← reqWith seen "fields" decodeLinkedIssueFields
  let self_link ← reqWith seen "self" decodeString
  pure { id, key, fields, self_link, extra := [] }

/-- Store the overflow map of `LinkedIssue`. -/
def LinkedIssue.withExtra (b : LinkedIssue) (e : List (String × Json)) :
    LinkedIssue :=
  { b with extra := e }

/-- Deserialize a `LinkedIssue`. -/
def decodeLinkedIssue : Json → Except DecodeError LinkedIssue :=
  decodeStruct "LinkedIssue" LinkedIssue.declared LinkedIssue.core
    LinkedIssue.withExtra

/-- A link from one Jira issue to another (struct `IssueLink`); the outward
and inward ends are independently optional. -/
structure IssueLink where
  id : String
  outward_issue : Option LinkedIssue
  inward_issue : Option LinkedIssue
  link_type : IssueLinkType
  self_link : String
  extra : List (String × Json)

/-- Wire names of the declared fields of `IssueLink`, in source order. -/
def IssueLink.declared : List String :=
  ["id", "outwardIssue", "inwardIssue", "type", "self"]

/-- Declared-field decoding for `IssueLink`. -/
def IssueLink.core (seen : List (String × Json)) :
    Except DecodeError IssueLink := do
  let id ← reqWith seen "id" decodeString
  let outward_issue ← optWith seen "outwardIssue" decodeLinkedIssue
  let inward_issue ← optWith seen "inwardIssue" decodeLinkedIssue
  let link_type ← reqWith seen "type" decodeIssueLinkType
  let self_link ← reqWith seen "self" decodeString
  pure { id, outward_issue, inward_issue, link_type, self_link, extra := [] }

/-- Store the overflow map of `IssueLink`. -/
def IssueLink.withExtra (b : IssueLink) (e : List (String × Json)) :
    IssueLink :=
  { b with extra := e }

/-- Deserialize an `IssueLink`. -/
def decodeIssueLink : Json → Except DecodeError IssueLink :=
  decodeStruct "IssueLink" IssueLink.declared IssueLink.core
    IssueLink.withExtra

/-- A minimal, reduced listing of the fields of a Jira issue
(struct `CondensedFields`); `priority` is required here. -/
structure CondensedFields where
  issuetype : IssueType
  priority : Priority
  status : Status
  summary : String
  extra : List (String × Json)

/-- Wire names of the declared fields of `CondensedFields`, in source
order. -/
def CondensedFields.declared : List String :=
  ["issuetype", "priority", "status", "summary"]

/-- Declared-field decoding for `CondensedFields`. -/
def CondensedFields.core (seen : List (String × Json)) :
    Except DecodeError CondensedFields := do
  let issuetype ← reqWith seen "issuetype" decodeIssueType
  let priority ← reqWith seen "priority" decodePriority
  let status ← reqWith seen "status" decodeStatus
  let summary ← reqWith seen "summary" decodeString
  pure { issuetype, priority, status, summary, extra := [] }

/-- Store the overflow map of `CondensedFields`. -/
def CondensedFields.withExtra (b : CondensedFields)
    (e : List (String × Json)) : CondensedFields :=
  { b with extra := e }

/-- Deserialize a `CondensedFields`. -/
def decodeCondensedFields : Json → Except DecodeError CondensedFields :=
  decodeStruct "CondensedFields" CondensedFields.declared CondensedFields.core
    CondensedFields.withExtra

/-- A minimal, reduced representation of a Jira issue
(struct `CondensedIssue`). -/
structure CondensedIssue where
  fields : CondensedFields
  id : String
  key : String
  self_link : String
  extra : List (String × Json)

/-- Wire names of the declared fields of `CondensedIssue`, in source order. -/
def CondensedIssue.declared : List String := ["fields", "id", "key", "self"]

/-- Declared-field decoding for `CondensedIssue`. -/
def CondensedIssue.core (seen : List (String × Json)) :
    Except DecodeError CondensedIssue := do
  let fields ← reqWith seen "fields" decodeCondensedFields
  let id ← reqWith seen "id" decodeString
  let key ← reqWith seen "key" decodeString
  let self_link ← reqWith seen "self" decodeString
  pure { fields, id, key, self_link, extra := [] }

/-- Store the overflow map of `CondensedIssue`. -/
def CondensedIssue.withExtra (b : CondensedIssue) (e : List (String × Json)) :
    CondensedIssue :=
  { b with extra := e }

/-- Deserialize a `CondensedIssue`. -/
def decodeCondensedIssue : Json → Except DecodeError CondensedIssue :=
  decodeStruct "CondensedIssue" CondensedIssue.declared CondensedIssue.core
    CondensedIssue.withExtra

/-- A container for most fields of a Jira issue (struct `Fields`). -/
structure Fields where
  last_viewed : Option DateTimeUtc
  labels : List String
  versions : List Version
  assignee : Option User
  description : Option String
  duedate : Option DateTimeUtc
  fix_versions : List Version
  reporter : User
  status : Status
  created : DateTimeUtc
  updated : DateTimeUtc
  issuetype : IssueType
  timeestimate : Option Int
  aggregatetimeestimate : Option Int
  timeoriginalestimate : Option Int
  timespent : Option Int
  aggregatetimespent : Option Int
  aggregatetimeoriginalestimate : Option Int
  progress : Progress
  aggregateprogress : Progress
  workratio : Int
  summary : String
  creator : User
  project : Project
  priority : Priority
  components : List Component
  watches : Watches
  archiveddate : Option DateTimeUtc
  archivedby : Option DateTimeUtc
  resolution : Option Resolution
  resolutiondate : Option DateTimeUtc
  comment : Option Comments
  issuelinks : List IssueLink
  votes : Votes
  parent : Option CondensedIssue
  subtasks : List CondensedIssue
  extra : List (String × Json)

/-- Wire names of the declared fields of `Fields`, in source order. -/
def Fields.declared : List String :=
  ["lastViewed", "labels", "versions", "assignee", "description", "duedate",
   "fixVersions", "reporter", "status", "created", "updated", "issuetype",
   "timeestimate", "aggregatetimeestimate", "timeoriginalestimate",
   "timespent", "aggregatetimespent", "aggregatetimeoriginalestimate",
   "progress", "aggregateprogress", "workratio", "summary", "creator",
   "project", "priority", "components", "watches", "archiveddate",
   "archivedby", "resolution", "resolutiondate", "comment", "issuelinks",
   "votes", "parent", "subtasks"]

/-- Declared-field decoding for `Fields`.  Note that in the source
`archivedby` is (oddly but faithfully) typed `Option<DateTime<Utc>>`. -/
def Fields.core (seen : List (String × Json)) : Except DecodeError Fields := do
  let last_viewed ← optWith seen "lastViewed" decodeDateTime
  let labels ← reqWith seen "labels" (decodeVec decodeString)
  let versions ← reqWith seen "versions" (decodeVec decodeVersion)
  let assignee ← optWith seen "assignee" decodeUser
  let description ← optWith seen "description" decodeString
  let duedate ← optWith seen "duedate" decodeDateTime
  let fix_versions ← reqWith seen "fixVersions" (decodeVec decodeVersion)
  let reporter ← reqWith seen "reporter" decodeUser
  let status ← reqWith seen "status" decodeStatus
  let created ← reqWith seen "created" decodeDateTime
  let updated ← reqWith seen "updated" decodeDateTime
  let issuetype ← reqWith seen "issuetype" decodeIssueType
  let timeestimate ← optWith seen "timeestimate" decodeI32
  let aggregatetimeestimate ← optWith seen "aggregatetimeestimate" decodeI32
  let timeoriginalestimate ← optWith seen "timeoriginalestimate" decodeI32
  let timespent ← optWith seen "timespent" decodeI32
  let aggregatetimespent ← optWith seen "aggregatetimespent" decodeI32
  let aggregatetimeoriginalestimate ←
    optWith seen "aggregatetimeoriginalestimate" decodeI32
  let progress ← reqWith seen "progress" decodeProgress
  let aggregateprogress ← reqWith seen "aggregateprogress" decodeProgress
  let workratio ← reqWith seen "workratio" decodeI32
  let summary ← reqWith seen "summary" decodeString
  let creator ← reqWith seen "creator" decodeUser
  let project ← reqWith seen "project" decodeProject
  let priority ← reqWith seen "priority" decodePriority
  let components ← reqWith seen "components" (decodeVec decodeComponent)
  let watches ← reqWith seen "watches" decodeWatches
  let archiveddate ← optWith seen "archiveddate" decodeDateTime
  let archivedby ← optWith seen "archivedby" decodeDateTime
  let resolution ← optWith seen "resolution" decodeResolution
  let resolutiondate ← optWith seen "resolutiondate" decodeDateTime
  let comment ← optWith seen "comment" decodeComments
  let issuelinks ← reqWith seen "issuelinks" (decodeVec decodeIssueLink)
  let votes ← reqWith seen "votes" decodeVotes
  let parent ← optWith seen "parent" decodeCondensedIssue
  let subtasks ← reqWith seen "subtasks" (decodeVec decodeCondensedIssue)
  pure { last_viewed, labels, versions, assignee, description, duedate,
         fix_versions, reporter, status, created, updated, issuetype,
         timeestimate, aggregatetimeestimate, timeoriginalestimate, timespent,
         aggregatetimespent, aggregatetimeoriginalestimate, progress,
         aggregateprogress, workratio, summary, creator, project, priority,
         components, watches, archiveddate, archivedby, resolution,
         resolutiondate, comment, issuelinks, votes, parent, subtasks,
         extra := [] }

/-- Store the overflow map of `Fields`. -/
def Fields.withExtra (b : Fields) (e : List (String × Json)) : Fields :=
  { b with extra := e }

/-- Deserialize a `Fields`. -/
def decodeFields : Json → Except DecodeError Fields :=
  decodeStruct "Fields" Fields.declared Fields.core Fields.withExtra

/-- A single Jira issue with all its fields (struct `Issue`). -/
structure Issue where
  id : String
  key : String
  expand : String
  fields : Fields
  self_link : String
  extra : List (String × Json)

/-- Wire names of the declared fields of `Issue`, in source order. -/
def Issue.declared : List String := ["id", "key", "expand", "fields", "self"]

/-- Declared-field decoding for `Issue`. -/
def Issue.core (seen : List (String × Json)) : Except DecodeError Issue := do
  let id ← reqWith seen "id" decodeString
  let key ← reqWith seen "key" decodeString
  let expand ← reqWith seen "expand" decodeString
  let fields ← reqWith seen "fields" decodeFields
  let self_link ← reqWith seen "self" decodeString
  pure { id, key, expand, fields, self_link, extra := [] }

/-- Store the overflow map of `Issue`. -/
def Issue.withExtra (b : Issue) (e : List (String × Json)) : Issue :=
  { b with extra := e }

/-- Deserialize an `Issue`. -/
def decodeIssue : Json → Except DecodeError Issue :=
  decodeStruct "Issue" Issue.declared Issue.core Issue.withExtra

/-- The response from Jira to a JQL query (struct `JqlResults`): the ordered
list of issues plus whatever metadata the response carries, captured in the
envelope's overflow map. -/
structure JqlResults where
  issues : List Issue
  extra : List (String × Json)

/-- Wire names of the declared fields of `JqlResults`, in source order. -/
def JqlResults.declared : List String := ["issues"]

/-- Declared-field decoding for `JqlResults`. -/
def JqlResults.core (seen : List (String × Json)) :
    Except DecodeError JqlResults := do
  let issues ← reqWith seen "issues" (decodeVec decodeIssue)
  pure { issues, extra := [] }

/-- Store the overflow map of `JqlResults`. -/
def JqlResults.withExtra (b : JqlResults) (e : List (String × Json)) :
    JqlResults :=
  { b with extra := e }

/-- Deserialize a `JqlResults`. -/
def decodeJqlResults : Json → Except DecodeError JqlResults :=
  decodeStruct "JqlResults" JqlResults.declared JqlResults.core
    JqlResults.withExtra

/-- Left-pad a number to two digits. -/
def pad2 (n : Nat) : String :=
  if n < 10 then "0" ++ toString n else toString n

/-- Left-pad a number to four digits. -/
def pad4 (n : Nat) : String :=
  if n < 10 then "000" ++ toString n
  else if n < 100 then "00" ++ toString n
  else if n < 1000 then "0" ++ toString n
  else toString n

/-- Left-pad a number to nine digits (fractional seconds). -/
def pad9 (n : Nat) : String :=
  let s := toString n
  String.mk (List.replicate (9 - s.length) '0') ++ s

/-- Render a calendar date as `YYYY-MM-DD`. -/
def formatNaiveDate (d : NaiveDate) : String :=
  pad4 d.year ++ "-" ++ pad2 d.month ++ "-" ++ pad2 d.day

/-- Render a timestamp in the RFC 3339 wire format. -/
def formatTimestamp (t : DateTimeUtc) : String :=
  pad4 t.year ++ "-" ++ pad2 t.month ++ "-" ++ pad2 t.day ++ "T" ++
  pad2 t.hour ++ ":" ++ pad2 t.minute ++ ":" ++ pad2 t.second ++
  (if t.nanos = 0 then "" else "." ++ pad9 t.nanos) ++
  (if t.offsetMinutes = 0 then "Z"
   else (if t.offsetMinutes < 0 then "-" else "+") ++
     pad2 (t.offsetMinutes.natAbs / 60) ++ ":" ++
     pad2 (t.offsetMinutes.natAbs % 60))

/-- Serialize an optional scalar/object field: `None` becomes JSON null. -/
def optJ {α : Type} (f : α → Json) : Option α → Json
  | none => .null
  | some a => f a

/-!
The serializers below are modelled from the spec: the source derives only
`Deserialize`, so re-serialization (the spec's "round-trip of overflow",
§8) is embodied as the spec's flattened form — every declared field under its
wire name, in declared order, followed by the overflow entries under their
original names.
-/

/-- Declared-field entries of an `AvatarUrls`, under their wire names. -/
def AvatarUrls.pre (a : AvatarUrls) : List (String × Json) :=
  [("16x16", .str a.xsmall), ("24x24", .str a.small), ("32x32", .str a.medium),
   ("48x48", .str a.full)]

/-- Modelled from the spec: serialize an `AvatarUrls`. -/
def serializeAvatarUrls (a : AvatarUrls) : Json :=
  .obj (AvatarUrls.pre a ++ a.extra)

/-- Declared-field entries of a `Progress`, under their wire names. -/
def Progress.pre (a : Progress) : List (String × Json) :=
  [("progress", .num a.progress), ("total", .num a.total)]

/-- Modelled from the spec: serialize a `Progress`. -/
def serializeProgress (a : Progress) : Json :=
  .obj (Progress.pre a ++ a.extra)

/-- Declared-field entries of a `Visibility`, under their wire names. -/
def Visibility.pre (a : Visibility) : List (String × Json) :=
  [("type", .str a.type), ("value", .str a.value)]

/-- Modelled from the spec: serialize a `Visibility`. -/
def serializeVisibility (a : Visibility) : Json :=
  .obj (Visibility.pre a ++ a.extra)

/-- Declared-field entries of a `StatusCategory`, under their wire names. -/
def StatusCategory.pre (a : StatusCategory) : List (String × Json) :=
  [("colorName", .str a.color_name), ("id", .num a.id), ("key", .str a.key),
   ("name", .str a.name), ("self", .str a.self_link)]

/-- Modelled from the spec: serialize a `StatusCategory`. -/
def serializeStatusCategory (a : StatusCategory) : Json :=
  .obj (StatusCategory.pre a ++ a.extra)

/-- Declared-field entries of a `Status`, under their wire names. -/
def Status.pre (a : Status) : List (String × Json) :=
  [("description", .str a.description), ("iconUrl", .str a.icon_url),
   ("id", .str a.id), ("name", .str a.name),
   ("statusCategory", serializeStatusCategory a.status_category),
   ("self", .str a.self_link)]

/-- Modelled from the spec: serialize a `Status`. -/
def serializeStatus (a : Status) : Json :=
  .obj (Status.pre a ++ a.extra)

/-- Declared-field entries of a `Resolution`, under their wire names. -/
def Resolution.pre (a : Resolution) : List (String × Json) :=
  [("description", .str a.description), ("id", .str a.id),
   ("name", .str a.name), ("self", .str a.self_link)]

/-- Modelled from the spec: serialize a `Resolution`. -/
def serializeResolution (a : Resolution) : Json :=
  .obj (Resolution.pre a ++ a.extra)

/-- Declared-field entries of an `IssueType`, under their wire names. -/
def IssueType.pre (a : IssueType) : List (String × Json) :=
  [("avatarId", .num a.avatar_id), ("description", .str a.description),
   ("iconUrl", .str a.icon_url), ("id", .str a.id), ("name", .str a.name),
   ("subtask", .bool a.subtask), ("self", .str a.self_link)]

/-- Modelled from the spec: serialize an `IssueType`. -/
def serializeIssueType (a : IssueType) : Json :=
  .obj (IssueType.pre a ++ a.extra)

/-- Declared-field entries of a `ProjectCategory`, under their wire names. -/
def ProjectCategory.pre (a : ProjectCategory) : List (String × Json) :=
  [("description", .str a.description), ("id", .str a.id),
   ("name", .str a.name), ("self", .str a.self_link)]

/-- Modelled from the spec: serialize a `ProjectCategory`. -/
def serializeProjectCategory (a : ProjectCategory) : Json :=
  .obj (ProjectCategory.pre a ++ a.extra)

/-- Declared-field entries of a `Project`, under their wire names. -/
def Project.pre (a : Project) : List (String × Json) :=
  [("id", .str a.id), ("key", .str a.key), ("name", .str a.name),
   ("projectTypeKey", .str a.project_type_key),
   ("projectCategory", serializeProjectCategory a.project_category),
   ("avatarUrls", serializeAvatarUrls a.avatar_urls),
   ("self", .str a.self_link)]

/-- Modelled from the spec: serialize a `Project`. -/
def serializeProject (a : Project) : Json :=
  .obj (Project.pre a ++ a.extra)

/-- Declared-field entries of a `Priority`, under their wire names. -/
def Priority.pre (a : Priority) : List (String × Json) :=
  [("iconUrl", .str a.icon_url), ("id", .str a.id), ("name", .str a.name),
   ("self", .str a.self_link)]

/-- Modelled from the spec: serialize a `Priority`. -/
def serializePriority (a : Priority) : Json :=
  .obj (Priority.pre a ++ a.extra)

/-- Declared-field entries of a `Component`, under their wire names. -/
def Component.pre (a : Component) : List (String × Json) :=
  [("description", optJ Json.str a.description), ("id", .str a.id),
   ("name", .str a.name), ("self", .str a.self_link)]

/-- Modelled from the spec: serialize a `Component`. -/
def serializeComponent (a : Component) : Json :=
  .obj (Component.pre a ++ a.extra)

/-- Declared-field entries of a `Watches`, under their wire names. -/
def Watches.pre (a : Watches) : List (String × Json) :=
  [("isWatching", .bool a.is_watching), ("watchCount", .num a.watch_count),
   ("self", .str a.self_link)]

/-- Modelled from the spec: serialize a `Watches`. -/
def serializeWatches (a : Watches) : Json :=
  .obj (Watches.pre a ++ a.extra)

/-- Declared-field entries of a `Votes`, under their wire names. -/
def Votes.pre (a : Votes) : List (String × Json) :=
  [("hasVoted", .bool a.has_voted), ("votes", .num a.votes),
   ("self", .str a.self_link)]

/-- Modelled from the spec: serialize a `Votes`. -/
def serializeVotes (a : Votes) : Json :=
  .obj (Votes.pre a ++ a.extra)

/-- Declared-field entries of a `User`, under their wire names. -/
def User.pre (a : User) : List (String × Json) :=
  [("active", .bool a.active), ("displayName", .str a.display_name),
   ("emailAddress", optJ Json.str a.email_address), ("key", .str a.key),
   ("name", .str a.name), ("timeZone", .str a.time_zone),
   ("avatarUrls", serializeAvatarUrls a.avatar_urls),
   ("self", .str a.self_link)]

/-- Modelled from the spec: serialize a `User`. -/
def serializeUser (a : User) : Json :=
  .obj (User.pre a ++ a.extra)

/-- Declared-field entries of a `Version`, under their wire names. -/
def Version.pre (a : Version) : List (String × Json) :=
  [("id", .str a.id), ("description", optJ Json.str a.description),
   ("name", .str a.name), ("archived", .bool a.archived),
   ("released", .bool a.released),
   ("releaseDate", optJ (fun d => Json.str (formatNaiveDate d))
     a.release_date),
   ("self", .str a.self_link)]

/-- Modelled from the spec: serialize a `Version`. -/
def serializeVersion (a : Version) : Json :=
  .obj (Version.pre a ++ a.extra)

/-- Declared-field entries of a `Comment`, under their wire names. -/
def Comment.pre (a : Comment) : List (String × Json) :=
  [("author", serializeUser a.author), ("body", .str a.body),
   ("created", .str (formatTimestamp a.created)), ("id", .str a.id),
   ("updateAuthor", serializeUser a.update_author),
   ("updated", .str (formatTimestamp a.updated)),
   ("visibility", optJ serializeVisibility a.visibility),
   ("self", .str a.self_link)]

/-- Modelled from the spec: serialize a `Comment`. -/
def serializeComment (a : Comment) : Json :=
  .obj (Comment.pre a ++ a.extra)

/-- Declared-field entries of a `Comments`, under their wire names. -/
def Comments.pre (a : Comments) : List (String × Json) :=
  [("comments", .arr (a.comments.map serializeComment)),
   ("maxResults", .num a.max_results), ("startAt", .num a.start_at),
   ("total", .num a.total)]

/-- Modelled from the spec: serialize a `Comments`. -/
def serializeComments (a : Comments) : Json :=
  .obj (Comments.pre a ++ a.extra)

/-- Declared-field entries of an `IssueLinkType`, under their wire names. -/
def IssueLinkType.pre (a : IssueLinkType) : List (String × Json) :=
  [("id", .str a.id), ("inward", .str a.inward), ("name", .str a.name),
   ("outward", .str a.outward), ("self", .str a.self_link)]

/-- Modelled from the spec: serialize an `IssueLinkType`. -/
def serializeIssueLinkType (a : IssueLinkType) : Json :=
  .obj (IssueLinkType.pre a ++ a.extra)

/-- Declared-field entries of a `LinkedIssueFields`, under their wire
names. -/
def LinkedIssueFields.pre (a : LinkedIssueFields) : List (String × Json) :=
  [("issuetype", serializeIssueType a.issuetype),
   ("priority", optJ serializePriority a.priority),
   ("status", serializeStatus a.status), ("summary", .str a.summary)]

/-- Modelled from the spec: serialize a `LinkedIssueFields`. -/
def serializeLinkedIssueFields (a : LinkedIssueFields) : Json :=
  .obj (LinkedIssueFields.pre a ++ a.extra)

/-- Declared-field entries of a `LinkedIssue`, under their wire names. -/
def LinkedIssue.pre (a : LinkedIssue) : List (String × Json) :=
  [("id", .str a.id), ("key", .str a.key),
   ("fields", serializeLinkedIssueFields a.fields),
   ("self", .str a.self_link)]

/-- Modelled from the spec: serialize a `LinkedIssue`. -/
def serializeLinkedIssue (a : LinkedIssue) : Json :=
  .obj (LinkedIssue.pre a ++ a.extra)

/-- Declared-field entries of an `IssueLink`, under their wire names. -/
def IssueLink.pre (a : IssueLink) : List (String × Json) :=
  [("id", .str a.id),
   ("outwardIssue", optJ serializeLinkedIssue a.outward_issue),
   ("inwardIssue", optJ serializeLinkedIssue a.inward_issue),
   ("type", serializeIssueLinkType a.link_type),
   ("self", .str a.self_link)]

/-- Modelled from the spec: serialize an `IssueLink`. -/
def serializeIssueLink (a : IssueLink) : Json :=
  .obj (IssueLink.pre a ++ a.extra)

/-- Declared-field entries of a `CondensedFields`, under their wire names. -/
def CondensedFields.pre (a : CondensedFields) : List (String × Json) :=
  [("issuetype", serializeIssueType a.issuetype),
   ("priority", serializePriority a.priority),
   ("status", serializeStatus a.status), ("summary", .str a.summary)]

/-- Modelled from the spec: serialize a `CondensedFields`. -/
def serializeCondensedFields (a : CondensedFields) : Json :=
  .obj (CondensedFields.pre a ++ a.extra)

/-- Declared-field entries of a `CondensedIssue`, under their wire names. -/
def CondensedIssue.pre (a : CondensedIssue) : List (String × Json) :=
  [("fields", serializeCondensedFields a.fields), ("id", .str a.id),
   ("key", .str a.key), ("self", .str a.self_link)]

/-- Modelled from the spec: serialize a `CondensedIssue`. -/
def serializeCondensedIssue (a : CondensedIssue) : Json :=
  .obj (CondensedIssue.pre a ++ a.extra)

/-- Declared-field entries of a `Fields`, under their wire names. -/
def Fields.pre (a : Fields) : List (String × Json) :=
  [("lastViewed", optJ (fun t => Json.str (formatTimestamp t))
     a.last_viewed),
   ("labels", .arr (a.labels.map Json.str)),
   ("versions", .arr (a.versions.map serializeVersion)),
   ("assignee", optJ serializeUser a.assignee),
   ("description", optJ Json.str a.description),
   ("duedate", optJ (fun t => Json.str (formatTimestamp t)) a.duedate),
   ("fixVersions", .arr (a.fix_versions.map serializeVersion)),
   ("reporter", serializeUser a.reporter),
   ("status", serializeStatus a.status),
   ("created", .str (formatTimestamp a.created)),
   ("updated", .str (formatTimestamp a.updated)),
   ("issuetype", serializeIssueType a.issuetype),
   ("timeestimate", optJ Json.num a.timeestimate),
   ("aggregatetimeestimate", optJ Json.num a.aggregatetimeestimate),
   ("timeoriginalestimate", optJ Json.num a.timeoriginalestimate),
   ("timespent", optJ Json.num a.timespent),
   ("aggregatetimespent", optJ Json.num a.aggregatetimespent),
   ("aggregatetimeoriginalestimate",
     optJ Json.num a.aggregatetimeoriginalestimate),
   ("progress", serializeProgress a.progress),
   ("aggregateprogress", serializeProgress a.aggregateprogress),
   ("workratio", .num a.workratio),
   ("summary", .str a.summary),
   ("creator", serializeUser a.creator),
   ("project", serializeProject a.project),
   ("priority", serializePriority a.priority),
   ("components", .arr (a.components.map serializeComponent)),
   ("watches", serializeWatches a.watches),
   ("archiveddate", optJ (fun t => Json.str (formatTimestamp t))
     a.archiveddate),
   ("archivedby", optJ (fun t => Json.str (formatTimestamp t)) a.archivedby),
   ("resolution", optJ serializeResolution a.resolution),
   ("resolutiondate", optJ (fun t => Json.str (formatTimestamp t))
     a.resolutiondate),
   ("comment", optJ serializeComments a.comment),
   ("issuelinks", .arr (a.issuelinks.map serializeIssueLink)),
   ("votes", serializeVotes a.votes),
   ("parent", optJ serializeCondensedIssue a.parent),
   ("subtasks", .arr (a.subtasks.map serializeCondensedIssue))]

/-- Modelled from the spec: serialize a `Fields`. -/
def serializeFields (a : Fields) : Json :=
  .obj (Fields.pre a ++ a.extra)

/-- Declared-field entries of an `Issue`, under their wire names. -/
def Issue.pre (a : Issue) : List (String × Json) :=
  [("id", .str a.id), ("key", .str a.key), ("expand", .str a.expand),
   ("fields", serializeFields a.fields), ("self", .str a.self_link)]

/-- Modelled from the spec: serialize an `Issue`. -/
def serializeIssue (a : Issue) : Json :=
  .obj (Issue.pre a ++ a.extra)

/-- Declared-field entries of a `JqlResults`, under their wire names. -/
def JqlResults.pre (a : JqlResults) : List (String × Json) :=
  [("issues", .arr (a.issues.map serializeIssue))]

/-- Modelled from the spec: serialize a `JqlResults`. -/
def serializeJqlResults (a : JqlResults) : Json :=
  .obj (JqlResults.pre a ++ a.extra)

/-- Enumeration of every entity struct of the source module, used to state
the cross-cutting per-entity contracts uniformly. -/
inductive EntityKind where
  | jqlResults
  | issue
  | fields
  | user
  | version
  | status
  | statusCategory
  | resolution
  | issueType
  | project
  | projectCategory
  | priority
  | component
  | watches
  | progress
  | comment
  | comments
  | issueLink
  | linkedIssue
  | linkedIssueFields
  | issueLinkType
  | votes
  | avatarUrls
  | condensedIssue
  | condensedFields
  | visibility

/-- The declared wire names of each entity. -/
def entityDeclared : EntityKind → List String
  | .jqlResults => JqlResults.declared
  | .issue => Issue.declared
  | .fields => Fields.declared
  | .user => User.declared
  | .version => Version.declared
  | .status => Status.declared
  | .statusCategory => StatusCategory.declared
  | .resolution => Resolution.declared
  | .issueType => IssueType.declared
  | .project => Project.declared
  | .projectCategory => ProjectCategory.declared
  | .priority => Priority.declared
  | .component => Component.declared
  | .watches => Watches.declared
  | .progress => Progress.declared
  | .comment => Comment.declared
  | .comments => Comments.declared
  | .issueLink => IssueLink.declared
  | .linkedIssue => LinkedIssue.declared
  | .linkedIssueFields => LinkedIssueFields.declared
  | .issueLinkType => IssueLinkType.declared
  | .votes => Votes.declared
  | .avatarUrls => AvatarUrls.declared
  | .condensedIssue => CondensedIssue.declared
  | .condensedFields => CondensedFields.declared
  | .visibility => Visibility.declared

/-- The required (non-`Option`) declared wire names of each entity. -/
def entityRequired : EntityKind → List String
  | .jqlResults => ["issues"]
  | .issue => ["id", "key", "expand", "fields", "self"]
  | .fields =>
    ["labels", "versions", "fixVersions", "reporter", "status", "created",
     "updated", "issuetype", "progress", "aggregateprogress", "workratio",
     "summary", "creator", "project", "priority", "components", "watches",
     "issuelinks", "votes", "subtasks"]
  | .user =>
    ["active", "displayName", "key", "name", "timeZone", "avatarUrls", "self"]
  | .version => ["id", "name", "archived", "released", "self"]
  | .status => ["description", "iconUrl", "id", "name", "statusCategory",
                "self"]
  | .statusCategory => ["colorName", "id", "key", "name", "self"]
  | .resolution => ["description", "id", "name", "self"]
  | .issueType => ["avatarId", "description", "iconUrl", "id", "name",
                   "subtask", "self"]
  | .project => ["id", "key", "name", "projectTypeKey", "projectCategory",
                 "avatarUrls", "self"]
  | .projectCategory => ["description", "id", "name", "self"]
  | .priority => ["iconUrl", "id", "name", "self"]
  | .component => ["id", "name", "self"]
  | .watches => ["isWatching", "watchCount", "self"]
  | .progress => ["progress", "total"]
  | .comment => ["author", "body", "created", "id", "updateAuthor", "updated",
                 "self"]
  | .comments => ["comments", "maxResults", "startAt", "total"]
  | .issueLink => ["id", "type", "self"]
  | .linkedIssue => ["id", "key", "fields", "self"]
  | .linkedIssueFields => ["issuetype", "status", "summary"]
  | .issueLinkType => ["id", "inward", "name", "outward", "self"]
  | .votes => ["hasVoted", "votes", "self"]
  | .avatarUrls => ["16x16", "24x24", "32x32", "48x48"]
  | .condensedIssue => ["fields", "id", "key", "self"]
  | .condensedFields => ["issuetype", "priority", "status", "summary"]
  | .visibility => ["type", "value"]

/-- Each entity's decoder with the result erased to `Unit`, for uniform
statements about success and failure. -/
def entityDecodeU : EntityKind → Json → Except DecodeError Unit
  | .jqlResults => fun j => Except.map (fun _ => ()) (decodeJqlResults j)
  | .issue => fun j => Except.map (fun _ => ()) (decodeIssue j)
  | .fields => fun j => Except.map (fun _ => ()) (decodeFields j)
  | .user => fun j => Except.map (fun _ => ()) (decodeUser j)
  | .version => fun j => Except.map (fun _ => ()) (decodeVersion j)
  | .status => fun j => Except.map (fun _ => ()) (decodeStatus j)
  | .statusCategory => fun j => Except.map (fun _ => ())
      (decodeStatusCategory j)
  | .resolution => fun j => Except.map (fun _ => ()) (decodeResolution j)
  | .issueType => fun j => Except.map (fun _ => ()) (decodeIssueType j)
  | .project => fun j => Except.map (fun _ => ()) (decodeProject j)
  | .projectCategory => fun j => Except.map (fun _ => ())
      (decodeProjectCategory j)
  | .priority => fun j => Except.map (fun _ => ()) (decodePriority j)
  | .component => fun j => Except.map (fun _ => ()) (decodeComponent j)
  | .watches => fun j => Except.map (fun _ => ()) (decodeWatches j)
  | .progress => fun j => Except.map (fun _ => ()) (decodeProgress j)
  | .comment => fun j => Except.map (fun _ => ()) (decodeComment j)
  | .comments => fun j => Except.map (fun _ => ()) (decodeComments j)
  | .issueLink => fun j => Except.map (fun _ => ()) (decodeIssueLink j)
  | .linkedIssue => fun j => Except.map (fun _ => ()) (decodeLinkedIssue j)
  | .linkedIssueFields => fun j => Except.map (fun _ => ())
      (decodeLinkedIssueFields j)
  | .issueLinkType => fun j => Except.map (fun _ => ())
      (decodeIssueLinkType j)
  | .votes => fun j => Except.map (fun _ => ()) (decodeVotes j)
  | .avatarUrls => fun j => Except.map (fun _ => ()) (decodeAvatarUrls j)
  | .condensedIssue => fun j => Except.map (fun _ => ())
      (decodeCondensedIssue j)
  | .condensedFields => fun j => Except.map (fun _ => ())
      (decodeCondensedFields j)
  | .visibility => fun j => Except.map (fun _ => ()) (decodeVisibility j)

/-- Each entity's decoder with the result projected to its overflow map. -/
def entityDecodeExtra :
    EntityKind → Json → Except DecodeError (List (String × Json))
  | .jqlResults => fun j => Except.map JqlResults.extra (decodeJqlResults j)
  | .issue => fun j => Except.map Issue.extra (decodeIssue j)
  | .fields => fun j => Except.map Fields.extra (decodeFields j)
  | .user => fun j => Except.map User.extra (decodeUser j)
  | .version => fun j => Except.map Version.extra (decodeVersion j)
  | .status => fun j => Except.map Status.extra (decodeStatus j)
  | .statusCategory => fun j => Except.map StatusCategory.extra
      (decodeStatusCategory j)
  | .resolution => fun j => Except.map Resolution.extra (decodeResolution j)
  | .issueType => fun j => Except.map IssueType.extra (decodeIssueType j)
  | .project => fun j => Except.map Project.extra (decodeProject j)
  | .projectCategory => fun j => Except.map ProjectCategory.extra
      (decodeProjectCategory j)
  | .priority => fun j => Except.map Priority.extra (decodePriority j)
  | .component => fun j => Except.map Component.extra (decodeComponent j)
  | .watches => fun j => Except.map Watches.extra (decodeWatches j)
  | .progress => fun j => Except.map Progress.extra (decodeProgress j)
  | .comment => fun j => Except.map Comment.extra (decodeComment j)
  | .comments => fun j => Except.map Comments.extra (decodeComments j)
  | .issueLink => fun j => Except.map IssueLink.extra (decodeIssueLink j)
  | .linkedIssue => fun j => Except.map LinkedIssue.extra
      (decodeLinkedIssue j)
  | .linkedIssueFields => fun j => Except.map LinkedIssueFields.extra
      (decodeLinkedIssueFields j)
  | .issueLinkType => fun j => Except.map IssueLinkType.extra
      (decodeIssueLinkType j)
  | .votes => fun j => Except.map Votes.extra (decodeVotes j)
  | .avatarUrls => fun j => Except.map AvatarUrls.extra (decodeAvatarUrls j)
  | .condensedIssue => fun j => Except.map CondensedIssue.extra
      (decodeCondensedIssue j)
  | .condensedFields => fun j => Except.map CondensedFields.extra
      (decodeCondensedFields j)
  | .visibility => fun j => Except.map Visibility.extra (decodeVisibility j)

/-- Each entity's decode followed by the spec-modelled re-serialization. -/
def entityDecSer : EntityKind → Json → Except DecodeError Json
  | .jqlResults => fun j => Except.map serializeJqlResults (decodeJqlResults j)
  | .issue => fun j => Except.map serializeIssue (decodeIssue j)
  | .fields => fun j => Except.map serializeFields (decodeFields j)
  | .user => fun j => Except.map serializeUser (decodeUser j)
  | .version => fun j => Except.map serializeVersion (decodeVersion j)
  | .status => fun j => Except.map serializeStatus (decodeStatus j)
  | .statusCategory => fun j => Except.map serializeStatusCategory
      (decodeStatusCategory j)
  | .resolution => fun j => Except.map serializeResolution
      (decodeResolution j)
  | .issueType => fun j => Except.map serializeIssueType (decodeIssueType j)
  | .project => fun j => Except.map serializeProject (decodeProject j)
  | .projectCategory => fun j => Except.map serializeProjectCategory
      (decodeProjectCategory j)
  | .priority => fun j => Except.map serializePriority (decodePriority j)
  | .component => fun j => Except.map serializeComponent (decodeComponent j)
  | .watches => fun j => Except.map serializeWatches (decodeWatches j)
  | .progress => fun j => Except.map serializeProgress (decodeProgress j)
  | .comment => fun j => Except.map serializeComment (decodeComment j)
  | .comments => fun j => Except.map serializeComments (decodeComments j)
  | .issueLink => fun j => Except.map serializeIssueLink (decodeIssueLink j)
  | .linkedIssue => fun j => Except.map serializeLinkedIssue
      (decodeLinkedIssue j)
  | .linkedIssueFields => fun j => Except.map serializeLinkedIssueFields
      (decodeLinkedIssueFields j)
  | .issueLinkType => fun j => Except.map serializeIssueLinkType
      (decodeIssueLinkType j)
  | .votes => fun j => Except.map serializeVotes (decodeVotes j)
  | .avatarUrls => fun j => Except.map serializeAvatarUrls
      (decodeAvatarUrls j)
  | .condensedIssue => fun j => Except.map serializeCondensedIssue
      (decodeCondensedIssue j)
  | .condensedFields => fun j => Except.map serializeCondensedFields
      (decodeCondensedFields j)
  | .visibility => fun j => Except.map serializeVisibility
      (decodeVisibility j)

/-- The full-timestamp wire string used by the sample documents. -/
def tsStr : String := "2024-01-15T10:00:00Z"

/-- Sample `AvatarUrls` object. -/
def avatarDoc : List (String × Json) :=
  [("16x16", .str "https://jira/avatar/16"),
   ("24x24", .str "https://jira/avatar/24"),
   ("32x32", .str "https://jira/avatar/32"),
   ("48x48", .str "https://jira/avatar/48")]

/-- Sample `Progress` object. -/
def progressDoc : List (String × Json) :=
  [("progress", .num 0), ("total", .num 0)]

/-- Sample `Visibility` object. -/
def visibilityDoc : List (String × Json) :=
  [("type", .str "role"), ("value", .str "Developers")]

/-- Sample `StatusCategory` object. -/
def statusCategoryDoc : List (String × Json) :=
  [("colorName", .str "green"), ("id", .num 1), ("key", .str "done"),
   ("name", .str "Done"), ("self", .str "https://jira/statuscategory/1")]

/-- Sample `Status` object. -/
def statusDoc : List (String × Json) :=
  [("description", .str "Work is finished"),
   ("iconUrl", .str "https://jira/icons/done.png"), ("id", .str "10000"),
   ("name", .str "Done"), ("statusCategory", .obj statusCategoryDoc),
   ("self", .str "https://jira/status/10000")]

/-- Sample `Resolution` object. -/
def resolutionDoc : List (String × Json) :=
  [("description", .str "The problem was fixed"), ("id", .str "1"),
   ("name", .str "Fixed"), ("self", .str "https://jira/resolution/1")]

/-- Sample `IssueType` object. -/
def issueTypeDoc : List (String × Json) :=
  [("avatarId", .num 3), ("description", .str "A software defect"),
   ("iconUrl", .str "https://jira/icons/bug.png"), ("id", .str "1"),
   ("name", .str "Bug"), ("subtask", .bool false),
   ("self", .str "https://jira/issuetype/1")]

/-- Sample `ProjectCategory` object. -/
def projectCategoryDoc : List (String × Json) :=
  [("description", .str "Product projects"), ("id", .str "200"),
   ("name", .str "Products"), ("self", .str "https://jira/projectCategory/200")]

/-- Sample `Project` object. -/
def projectDoc : List (String × Json) :=
  [("id", .str "100"), ("key", .str "PRJ"), ("name", .str "Product"),
   ("projectTypeKey", .str "software"),
   ("projectCategory", .obj projectCategoryDoc),
   ("avatarUrls", .obj avatarDoc), ("self", .str "https://jira/project/100")]

/-- Sample `Priority` object. -/
def priorityDoc : List (String × Json) :=
  [("iconUrl", .str "https://jira/icons/major.png"), ("id", .str "2"),
   ("name", .str "Major"), ("self", .str "https://jira/priority/2")]

/-- Sample `Component` object. -/
def componentDoc : List (String × Json) :=
  [("id", .str "300"), ("name", .str "core"),
   ("self", .str "https://jira/component/300")]

/-- Sample `Watches` object. -/
def watchesDoc : List (String × Json) :=
  [("isWatching", .bool false), ("watchCount", .num 1),
   ("self", .str "https://jira/watches/1000")]

/-- Sample `Votes` object. -/
def votesDoc : List (String × Json) :=
  [("hasVoted", .bool false), ("votes", .num 0),
   ("self", .str "https://jira/votes/1000")]

/-- Sample `User` object. -/
def userDoc : List (String × Json) :=
  [("active", .bool true), ("displayName", .str "Jane Doe"),
   ("key", .str "jdoe"), ("name", .str "jdoe"), ("timeZone", .str "Etc/UTC"),
   ("avatarUrls", .obj avatarDoc), ("self", .str "https://jira/user/jdoe")]

/-- Sample `Version` object (without the optional fields). -/
def versionDoc : List (String × Json) :=
  [("id", .str "400"), ("name", .str "1.0"), ("archived", .bool false),
   ("released", .bool true), ("self", .str "https://jira/version/400")]

/-- Sample `Comment` object. -/
def commentDoc : List (String × Json) :=
  [("author", .obj userDoc), ("body", .str "Looks good"),
   ("created", .str tsStr), ("id", .str "500"),
   ("updateAuthor", .obj userDoc), ("updated", .str tsStr),
   ("self", .str "https://jira/comment/500")]

/-- Sample `Comments` object. -/
def commentsDoc : List (String × Json) :=
  [("comments", .arr []), ("maxResults", .num 50), ("startAt", .num 0),
   ("total", .num 0)]

/-- Sample `IssueLinkType` object. -/
def issueLinkTypeDoc : List (String × Json) :=
  [("id", .str "600"), ("inward", .str "is blocked by"),
   ("name", .str "Blocks"), ("outward", .str "blocks"),
   ("self", .str "https://jira/issueLinkType/600")]

/-- Sample `LinkedIssueFields` object (no `priority`, which is optional
there). -/
def linkedIssueFieldsDoc : List (String × Json) :=
  [("issuetype", .obj issueTypeDoc), ("status", .obj statusDoc),
   ("summary", .str "A linked issue")]

/-- Sample `LinkedIssue` object. -/
def linkedIssueDoc : List (String × Json) :=
  [("id", .str "700"), ("key", .str "PRJ-2"),
   ("fields", .obj linkedIssueFieldsDoc),
   ("self", .str "https://jira/issue/700")]

/-- Sample `IssueLink` object (both optional ends absent). -/
def issueLinkDoc : List (String × Json) :=
  [("id", .str "800"), ("type", .obj issueLinkTypeDoc),
   ("self", .str "https://jira/issueLink/800")]

/-- Sample `CondensedFields` object (`priority` present, it is required
there). -/
def condensedFieldsDoc : List (String × Json) :=
  [("issuetype", .obj issueTypeDoc), ("priority", .obj priorityDoc),
   ("status", .obj statusDoc), ("summary", .str "A subtask")]

/-- Sample `CondensedIssue` object. -/
def condensedIssueDoc : List (String × Json) :=
  [("fields", .obj condensedFieldsDoc), ("id", .str "900"),
   ("key", .str "PRJ-3"), ("self", .str "https://jira/issue/900")]

/-- Sample `Fields` object: all required fields, empty collections, no
optional fields. -/
def fieldsDoc : List (String × Json) :=
  [("labels", .arr []), ("versions", .arr []), ("fixVersions", .arr []),
   ("reporter", .obj userDoc), ("status", .obj statusDoc),
   ("created", .str tsStr), ("updated", .str tsStr),
   ("issuetype", .obj issueTypeDoc), ("progress", .obj progressDoc),
   ("aggregateprogress", .obj progressDoc), ("workratio", .num (-1)),
   ("summary", .str "A summary"), ("creator", .obj userDoc),
   ("project", .obj projectDoc), ("priority", .obj priorityDoc),
   ("components", .arr []), ("watches", .obj watchesDoc),
   ("issuelinks", .arr []), ("votes", .obj votesDoc), ("subtasks", .arr [])]

/-- Sample `Fields` object with one custom (undeclared) field. -/
def fieldsDocCustom : List (String × Json) :=
  fieldsDoc ++ [("customfield_10010", .str "foo")]

/-- Sample `Issue` object. -/
def issueDoc : List (String × Json) :=
  [("id", .str "1000"), ("key", .str "PRJ-1"), ("expand", .str "names"),
   ("fields", .obj fieldsDoc), ("self", .str "https://jira/issue/1000")]

/-- Sample `JqlResults` object: one issue plus pagination metadata. -/
def jqlResultsDoc : List (String × Json) :=
  [("issues", .arr [.obj issueDoc]), ("total", .num 1), ("startAt", .num 0),
   ("maxResults", .num 50)]

/-- The minimal valid sample object of each entity. -/
def entityValidDoc : EntityKind → List (String × Json)
  | .jqlResults => jqlResultsDoc
  | .issue => issueDoc
  | .fields => fieldsDoc
  | .user => userDoc
  | .version => versionDoc
  | .status => statusDoc
  | .statusCategory => statusCategoryDoc
  | .resolution => resolutionDoc
  | .issueType => issueTypeDoc
  | .project => projectDoc
  | .projectCategory => projectCategoryDoc
  | .priority => priorityDoc
  | .component => componentDoc
  | .watches => watchesDoc
  | .progress => progressDoc
  | .comment => commentDoc
  | .comments => commentsDoc
  | .issueLink => issueLinkDoc
  | .linkedIssue => linkedIssueDoc
  | .linkedIssueFields => linkedIssueFieldsDoc
  | .issueLinkType => issueLinkTypeDoc
  | .votes => votesDoc
  | .avatarUrls => avatarDoc
  | .condensedIssue => condensedIssueDoc
  | .condensedFields => condensedFieldsDoc
  | .visibility => visibilityDoc

/-- The decoded record of a document without a given (optional) field equals
the decoded record of the same document with that field present as explicit
JSON null. -/
def nullAbsentAgrees {α : Type} (dec : Json → Except DecodeError α)
    (doc : List (String × Json)) (k : String) : Prop :=
  dec (.obj doc) = dec (.obj (doc ++ [(k, Json.null)]))

/-! ### Lemmas about lookups and the field-splitting loop -/

theorem lookupJ_cons (k' : String) (v : Json) (l : List (String × Json))
    (k : String) :
    lookupJ ((k', v) :: l) k = if k' = k then some v else lookupJ l k := rfl

theorem oElse_none_right {α : Type} (o : Option α) : oElse o none = o := by
  cases o <;> rfl

theorem oElse_assoc {α : Type} (a b c : Option α) :
    oElse (oElse a b) c = oElse a (oElse b c) := by
  cases a <;> rfl

theorem lookupJ_append (l₁ l₂ : List (String × Json)) (k : String) :
    lookupJ (l₁ ++ l₂) k = oElse (lookupJ l₁ k) (lookupJ l₂ k) := by
  induction l₁ with
  | nil => rfl
  | cons hd tl ih =>
    obtain ⟨a, b⟩ := hd
    by_cases hak : a = k
    · simp [lookupJ_cons, hak, oElse]
    · simp [lookupJ_cons, hak, ih]

theorem lookupJ_insertKey (l : List (String × Json)) (k : String) (v : Json)
    (k' : String) :
    lookupJ (insertKey l k v) k' = if k = k' then some v else lookupJ l k' := by
  induction l with
  | nil => rfl
  | cons hd tl ih =>
    obtain ⟨a, b⟩ := hd
    by_cases hak : a = k
    · subst hak
      simp only [insertKey, if_pos rfl]
      by_cases hkk : a = k'
      · simp [lookupJ_cons, hkk]
      · simp [lookupJ_cons, hkk]
    · simp only [insertKey, if_neg hak]
      by_cases hkk : a = k'
      · subst hkk
        have hne : ¬ k = a := fun h => hak h.symm
        simp [lookupJ_cons, hne]
      · simp [lookupJ_cons, hkk, ih]

theorem keyMem_iff_mem_keys (l : List (String × Json)) (k : String) :
    keyMem l k = true ↔ k ∈ l.map Prod.fst := by
  induction l with
  | nil => simp [keyMem, lookupJ]
  | cons hd tl ih =>
    obtain ⟨a, b⟩ := hd
    by_cases hak : a = k
    · simp [keyMem, lookupJ_cons, hak]
    · simp only [keyMem, lookupJ_cons, if_neg hak, List.map_cons,
        List.mem_cons]
      rw [← keyMem]
      rw [ih]
      constructor
      · exact fun h => Or.inr h
      · rintro (h | h)
        · exact absurd h.symm hak
        · exact h

theorem keyMem_false_lookupJ (l : List (String × Json)) (k : String)
    (h : keyMem l k = false) : lookupJ l k = none := by
  unfold keyMem at h
  cases hl : lookupJ l k
  · rfl
  · rw [hl] at h; cases h

theorem splitFieldsAux_extra_keys (declared : List String) :
    ∀ (entries seenA extraA seen extra : List (String × Json)),
    splitFieldsAux declared seenA extraA entries = .ok (seen, extra) →
    ∀ k, keyMem extra k =
      (keyMem extraA k || (keyMem entries k && !(declared.contains k))) := by
  intro entries
  induction entries with
  | nil =>
    intro seenA extraA seen extra h k
    simp only [splitFieldsAux] at h
    obtain ⟨rfl, rfl⟩ : seenA = seen ∧ extraA = extra := by
      constructor <;> [exact congrArg Prod.fst (Except.ok.inj h);
        exact congrArg Prod.snd (Except.ok.inj h)]
    simp [keyMem, lookupJ]
  | cons hd tl ih =>
    obtain ⟨k', v'⟩ := hd
    intro seenA extraA seen extra h k
    simp only [splitFieldsAux] at h
    by_cases hd1 : declared.contains k' = true
    · rw [if_pos hd1] at h
      by_cases hd2 : (lookupJ seenA k').isSome = true
      · rw [if_pos hd2] at h; cases h
      · rw [if_neg hd2] at h
        rw [ih (seenA ++ [(k', v')]) extraA seen extra h k]
        by_cases hkk : k' = k
        · subst hkk
          rw [hd1]
          simp
        · simp [keyMem, lookupJ_cons, hkk]
    · rw [if_neg hd1] at h
      rw [ih seenA (insertKey extraA k' v') seen extra h k]
      by_cases hkk : k' = k
      · subst hkk
        have hd1' : declared.contains k' = false := by
          cases hq : declared.contains k'
          · rfl
          · exact absurd hq hd1
        rw [hd1']
        simp [keyMem, lookupJ_insertKey, lookupJ_cons]
      · simp [keyMem, lookupJ_insertKey, lookupJ_cons, hkk]

theorem splitFieldsAux_extra_stable (declared : List String) :
    ∀ (entries seenA extraA seen extra : List (String × Json)),
    splitFieldsAux declared seenA extraA entries = .ok (seen, extra) →
    ∀ k, keyMem entries k = false → lookupJ extra k = lookupJ extraA k := by
  intro entries
  induction entries with
  | nil =>
    intro seenA extraA seen extra h k _
    obtain ⟨rfl, rfl⟩ : seenA = seen ∧ extraA = extra := by
      simp only [splitFieldsAux] at h
      constructor <;> [exact congrArg Prod.fst (Except.ok.inj h);
        exact congrArg Prod.snd (Except.ok.inj h)]
    rfl
  | cons hd tl ih =>
    obtain ⟨k', v'⟩ := hd
    intro seenA extraA seen extra h k hk
    have hkk : ¬ k' = k := by
      intro hkk
      subst hkk
      simp [keyMem, lookupJ_cons] at hk
    have hktl : keyMem tl k = false := by
      simpa [keyMem, lookupJ_cons, hkk] using hk
    simp only [splitFieldsAux] at h
    by_cases hd1 : declared.contains k' = true
    · rw [if_pos hd1] at h
      by_cases hd2 : (lookupJ seenA k').isSome = true
      · rw [if_pos hd2] at h; cases h
      · rw [if_neg hd2] at h
        exact ih (seenA ++ [(k', v')]) extraA seen extra h k hktl
    · rw [if_neg hd1] at h
      rw [ih seenA (insertKey extraA k' v') seen extra h k hktl]
      simp [lookupJ_insertKey, hkk]

theorem splitFieldsAux_extra_lookup (declared : List String) :
    ∀ (entries seenA extraA seen extra : List (String × Json)),
    splitFieldsAux declared seenA extraA entries = .ok (seen, extra) →
    NodupKeys entries →
    ∀ k v, lookupJ entries k = some v → declared.contains k = false →
    lookupJ extra k = some v := by
  intro entries
  induction entries with
  | nil =>
    intro seenA extraA seen extra _ _ k v hkv
    cases hkv
  | cons hd tl ih =>
    obtain ⟨k', v'⟩ := hd
    intro seenA extraA seen extra h hnod k v hkv hk
    have hnodtl : NodupKeys tl := by
      simpa [NodupKeys] using (List.nodup_cons.mp hnod).2
    simp only [splitFieldsAux] at h
    by_cases hkk : k' = k
    · subst hkk
      have hd1 : ¬ declared.contains k' = true := by
        intro hc
        rw [hk] at hc
        cases hc
      rw [if_neg hd1] at h
      have hv : v' = v := by
        simpa [lookupJ_cons] using hkv
      subst hv
      have hmem : keyMem tl k' = false := by
        have : k' ∉ tl.map Prod.fst := (List.nodup_cons.mp hnod).1
        cases hq : keyMem tl k'
        · rfl
        · exact absurd ((keyMem_iff_mem_keys tl k').mp hq) this
      rw [splitFieldsAux_extra_stable declared tl seenA
        (insertKey extraA k' v') seen extra h k' hmem]
      simp [lookupJ_insertKey]
    · have hkvtl : lookupJ tl k = some v := by
        simpa [lookupJ_cons, hkk] using hkv
      by_cases hd1 : declared.contains k' = true
      · rw [if_pos hd1] at h
        by_cases hd2 : (lookupJ seenA k').isSome = true
        · rw [if_pos hd2] at h; cases h
        · rw [if_neg hd2] at h
          exact ih (seenA ++ [(k', v')]) extraA seen extra h hnodtl k v
            hkvtl hk
      · rw [if_neg hd1] at h
        exact ih seenA (insertKey extraA k' v') seen extra h hnodtl k v
          hkvtl hk

theorem splitFieldsAux_seen_lookup (declared : List String) :
    ∀ (entries seenA extraA seen extra : List (String × Json)),
    splitFieldsAux declared seenA extraA entries = .ok (seen, extra) →
    ∀ k, declared.contains k = true →
    lookupJ seen k = oElse (lookupJ seenA k) (lookupJ entries k) := by
  intro entries
  induction entries with
  | nil =>
    intro seenA extraA seen extra h k _
    obtain ⟨rfl, rfl⟩ : seenA = seen ∧ extraA = extra := by
      simp only [splitFieldsAux] at h
      constructor <;> [exact congrArg Prod.fst (Except.ok.inj h);
        exact congrArg Prod.snd (Except.ok.inj h)]
    simp [lookupJ, oElse_none_right]
  | cons hd tl ih =>
    obtain ⟨k', v'⟩ := hd
    intro seenA extraA seen extra h k hk
    simp only [splitFieldsAux] at h
    by_cases hd1 : declared.contains k' = true
    · rw [if_pos hd1] at h
      by_cases hd2 : (lookupJ seenA k').isSome = true
      · rw [if_pos hd2] at h; cases h
      · rw [if_neg hd2] at h
        rw [ih (seenA ++ [(k', v')]) extraA seen extra h k hk]
        rw [lookupJ_append, oElse_assoc]
        by_cases hkk : k' = k
        · subst hkk
          simp [lookupJ_cons, lookupJ, oElse]
        · simp [lookupJ_cons, lookupJ, hkk, oElse]
    · rw [if_neg hd1] at h
      have hkk : ¬ k' = k := by
        intro hkk
        subst hkk
        exact hd1 hk
      rw [ih seenA (insertKey extraA k' v') seen extra h k hk]
      simp [lookupJ_cons, hkk]

theorem splitFieldsAux_ok_of_nodeclared (declared : List String) :
    ∀ (entries seenA extraA : List (String × Json)),
    (∀ k, declared.contains k = true → keyMem entries k = false) →
    ∃ extra, splitFieldsAux declared seenA extraA entries =
      .ok (seenA, extra) := by
  intro entries
  induction entries with
  | nil =>
    intro seenA extraA _
    exact ⟨extraA, rfl⟩
  | cons hd tl ih =>
    obtain ⟨k', v'⟩ := hd
    intro seenA extraA hnone
    have hd1 : ¬ declared.contains k' = true := by
      intro hd1
      have := hnone k' hd1
      simp [keyMem, lookupJ_cons] at this
    have htl : ∀ k, declared.contains k = true → keyMem tl k = false := by
      intro k hk
      have := hnone k hk
      by_cases hkk : k' = k
      · subst hkk
        simp [keyMem, lookupJ_cons] at this
      · simpa [keyMem, lookupJ_cons, hkk] using this
    obtain ⟨extra, hex⟩ := ih seenA (insertKey extraA k' v') htl
    refine ⟨extra, ?_⟩
    simp only [splitFieldsAux, if_neg hd1]
    exact hex

/-! ### Generic lemmas about `decodeStruct` and sequence decoding -/

theorem except_map_ok {α β : Type} {f : α → β} {x : Except DecodeError α}
    {b : β} (h : Except.map f x = .ok b) : ∃ a, x = .ok a ∧ f a = b := by
  cases x with
  | ok a => exact ⟨a, rfl, by simpa [Except.map] using h⟩
  | error e => simp [Except.map] at h

theorem decodeStruct_inv {β α : Type} (name : String) (declared : List String)
    (core : List (String × Json) → Except DecodeError β)
    (withExtra : β → List (String × Json) → α)
    (entries : List (String × Json)) (r : α)
    (h : decodeStruct name declared core withExtra (.obj entries) = .ok r) :
    ∃ seen extra b, splitFields declared entries = .ok (seen, extra) ∧
      core seen = .ok b ∧ r = withExtra b extra := by
  simp only [decodeStruct] at h
  split at h
  next e heq => cases h
  next seen extra heq =>
    split at h
    next e hc => cases h
    next b hc => exact ⟨seen, extra, b, heq, hc, (Except.ok.inj h).symm⟩

theorem decodeStruct_extra_keys {β α : Type} (name : String)
    (declared : List String)
    (core : List (String × Json) → Except DecodeError β)
    (withExtra : β → List (String × Json) → α)
    (extraOf : α → List (String × Json))
    (hw : ∀ (b : β) e, extraOf (withExtra b e) = e)
    (entries : List (String × Json)) (r : α)
    (h : decodeStruct name declared core withExtra (.obj entries) = .ok r)
    (k : String) :
    keyMem (extraOf r) k = (keyMem entries k && !(declared.contains k)) := by
  obtain ⟨seen, extra, b, hs, _, hr⟩ :=
    decodeStruct_inv name declared core withExtra entries r h
  subst hr
  rw [hw]
  have := splitFieldsAux_extra_keys declared entries [] [] seen extra hs k
  simpa [keyMem, lookupJ] using this

theorem mapExtra_keys {β α : Type} (name : String) (declared : List String)
    (core : List (String × Json) → Except DecodeError β)
    (withExtra : β → List (String × Json) → α)
    (extraOf : α → List (String × Json))
    (hw : ∀ (b : β) e, extraOf (withExtra b e) = e)
    (entries : List (String × Json)) (ex : List (String × Json))
    (h : Except.map extraOf
      (decodeStruct name declared core withExtra (.obj entries)) = .ok ex)
    (k : String) :
    keyMem ex k = (keyMem entries k && !(declared.contains k)) := by
  obtain ⟨r, hr, hfx⟩ := except_map_ok h
  rw [← hfx]
  exact decodeStruct_extra_keys name declared core withExtra extraOf hw
    entries r hr k

theorem decodeStruct_roundtrip {β α : Type} (name : String)
    (declared : List String)
    (core : List (String × Json) → Except DecodeError β)
    (withExtra : β → List (String × Json) → α)
    (extraOf : α → List (String × Json))
    (pre : α → List (String × Json))
    (hw : ∀ (b : β) e, extraOf (withExtra b e) = e)
    (hkeys : ∀ (a : α), (pre a).map Prod.fst = declared)
    (entries : List (String × Json)) (r : α)
    (hnod : NodupKeys entries)
    (h : decodeStruct name declared core withExtra (.obj entries) = .ok r)
    (k : String) (v : Json)
    (hkv : lookupJ entries k = some v) (hk : declared.contains k = false) :
    lookupJ (pre r ++ extraOf r) k = some v := by
  obtain ⟨seen, extra, b, hs, _, hr⟩ :=
    decodeStruct_inv name declared core withExtra entries r h
  have hex : lookupJ extra k = some v :=
    splitFieldsAux_extra_lookup declared entries [] [] seen extra hs hnod
      k v hkv hk
  have hpre : lookupJ (pre r) k = none := by
    apply keyMem_false_lookupJ
    cases hq : keyMem (pre r) k
    · rfl
    · exfalso
      have hmem : k ∈ (pre r).map Prod.fst := (keyMem_iff_mem_keys _ _).mp hq
      rw [hkeys r] at hmem
      rw [List.contains_eq_any_beq] at hk
      have : declared.any (fun x => k == x) = true :=
        List.any_eq_true.mpr ⟨k, hmem, by simp⟩
      rw [this] at hk
      cases hk
  rw [lookupJ_append, hpre]
  subst hr
  rw [hw]
  simpa [oElse] using hex

theorem mapSer_roundtrip {β α : Type} (name : String)
    (declared : List String)
    (core : List (String × Json) → Except DecodeError β)
    (withExtra : β → List (String × Json) → α)
    (extraOf : α → List (String × Json))
    (pre : α → List (String × Json))
    (hw : ∀ (b : β) e, extraOf (withExtra b e) = e)
    (hkeys : ∀ (a : α), (pre a).map Prod.fst = declared)
    (entries : List (String × Json)) (out : Json)
    (hnod : NodupKeys entries)
    (h : Except.map (fun a => Json.obj (pre a ++ extraOf a))
      (decodeStruct name declared core withExtra (.obj entries)) = .ok out)
    (k : String) (v : Json)
    (hkv : lookupJ entries k = some v) (hk : declared.contains k = false) :
    ∃ es, out = .obj es ∧ lookupJ es k = some v := by
  obtain ⟨r, hr, hso⟩ := except_map_ok h
  exact ⟨pre r ++ extraOf r, hso.symm,
    decodeStruct_roundtrip name declared core withExtra extraOf pre hw hkeys
      entries r hnod hr k v hkv hk⟩

theorem decodeElems_ok {α : Type} (f : Json → Except DecodeError α) :
    ∀ (js : List Json) (rs : List α), decodeElems f js = .ok rs →
    rs.length = js.length ∧
    ∀ i (h1 : i < js.length) (h2 : i < rs.length),
      f (js.get ⟨i, h1⟩) = .ok (rs.get ⟨i, h2⟩) := by
  intro js
  induction js with
  | nil =>
    intro rs h
    simp only [decodeElems] at h
    obtain rfl : ([] : List α) = rs := Except.ok.inj h
    exact ⟨rfl, fun i h1 _ => absurd h1 (Nat.not_lt_zero i)⟩
  | cons x xs ih =>
    intro rs h
    simp only [decodeElems] at h
    cases hx : f x with
    | error e => rw [hx] at h; cases h
    | ok a =>
      rw [hx] at h
      cases hxs : decodeElems f xs with
      | error e => rw [hxs] at h; cases h
      | ok as =>
        rw [hxs] at h
        obtain rfl : a :: as = rs := Except.ok.inj h
        obtain ⟨hlen, hget⟩ := ih as hxs
        refine ⟨by simpa using hlen, ?_⟩
        intro i h1 h2
        cases i with
        | zero => simpa using hx
        | succ n =>
          exact hget n (Nat.lt_of_succ_lt_succ h1) (Nat.lt_of_succ_lt_succ h2)

theorem decodeElems_err {α : Type} (f : Json → Except DecodeError α) :
    ∀ (js : List Json), (∃ j ∈ js, isErrB (f j) = true) →
    isErrB (decodeElems f js) = true := by
  intro js
  induction js with
  | nil =>
    rintro ⟨j, hj, _⟩
    cases hj
  | cons x xs ih =>
    rintro ⟨j, hj, hje⟩
    simp only [decodeElems]
    cases hx : f x with
    | error e => rfl
    | ok a =>
      have hxs : ∃ j ∈ xs, isErrB (f j) = true := by
        rcases List.mem_cons.mp hj with rfl | hmem
        · rw [hx] at hje; cases hje
        · exact ⟨j, hmem, hje⟩
      have := ih hxs
      cases hr : decodeElems f xs with
      | error e => rfl
      | ok as => rw [hr] at this; cases this

/-! ### Claim theorems -/

/-- C3: after any successful decode, every entity's overflow bag contains
exactly those keys of the corresponding JSON object that are not declared
wire names of that entity, at that entity's own nesting level; in particular
no declared field's wire name ever appears in that entity's overflow bag. -/
theorem c3_overflow_exact (e : EntityKind) (entries ex : List (String × Json))
    (h : entityDecodeExtra e (.obj entries) = .ok ex) (k : String) :
    keyMem ex k = (keyMem entries k && !((entityDeclared e).contains k)) := by
  cases e
  case jqlResults =>
    exact mapExtra_keys "JqlResults" JqlResults.declared JqlResults.core
      JqlResults.withExtra JqlResults.extra (fun _ _ => rfl) entries ex h k
  case issue =>
    exact mapExtra_keys "Issue" Issue.declared Issue.core Issue.withExtra
      Issue.extra (fun _ _ => rfl) entries ex h k
  case fields =>
    exact mapExtra_keys "Fields" Fields.declared Fields.core Fields.withExtra
      Fields.extra (fun _ _ => rfl) entries ex h k
  case user =>
    exact mapExtra_keys "User" User.declared User.core User.withExtra
      User.extra (fun _ _ => rfl) entries ex h k
  case version =>
    exact mapExtra_keys "Version" Version.declared Version.core
      Version.withExtra Version.extra (fun _ _ => rfl) entries ex h k
  case status =>
    exact mapExtra_keys "Status" Status.declared Status.core Status.withExtra
      Status.extra (fun _ _ => rfl) entries ex h k
  case statusCategory =>
    exact mapExtra_keys "StatusCategory" StatusCategory.declared
      StatusCategory.core StatusCategory.withExtra StatusCategory.extra
      (fun _ _ => rfl) entries ex h k
  case resolution =>
    exact mapExtra_keys "Resolution" Resolution.declared Resolution.core
      Resolution.withExtra Resolution.extra (fun _ _ => rfl) entries ex h k
  case issueType =>
    exact mapExtra_keys "IssueType" IssueType.declared IssueType.core
      IssueType.withExtra IssueType.extra (fun _ _ => rfl) entries ex h k
  case project =>
    exact mapExtra_keys "Project" Project.declared Project.core
      Project.withExtra Project.extra (fun _ _ => rfl) entries ex h k
  case projectCategory =>
    exact mapExtra_keys "ProjectCategory" ProjectCategory.declared
      ProjectCategory.core ProjectCategory.withExtra ProjectCategory.extra
      (fun _ _ => rfl) entries ex h k
  case priority =>
    exact mapExtra_keys "Priority" Priority.declared Priority.core
      Priority.withExtra Priority.extra (fun _ _ => rfl) entries ex h k
  case component =>
    exact mapExtra_keys "Component" Component.declared Component.core
      Component.withExtra Component.extra (fun _ _ => rfl) entries ex h k
  case watches =>
    exact mapExtra_keys "Watches" Watches.declared Watches.core
      Watches.withExtra Watches.extra (fun _ _ => rfl) entries ex h k
  case progress =>
    exact mapExtra_keys "Progress" Progress.declared Progress.core
      Progress.withExtra Progress.extra (fun _ _ => rfl) entries ex h k
  case comment =>
    exact mapExtra_keys "Comment" Comment.declared Comment.core
      Comment.withExtra Comment.extra (fun _ _ => rfl) entries ex h k
  case comments =>
    exact mapExtra_keys "Comments" Comments.declared Comments.core
      Comments.withExtra Comments.extra (fun _ _ => rfl) entries ex h k
  case issueLink =>
    exact mapExtra_keys "IssueLink" IssueLink.declared IssueLink.core
      IssueLink.withExtra IssueLink.extra (fun _ _ => rfl) entries ex h k
  case linkedIssue =>
    exact mapExtra_keys "LinkedIssue" LinkedIssue.declared LinkedIssue.core
      LinkedIssue.withExtra LinkedIssue.extra (fun _ _ => rfl) entries ex h k
  case linkedIssueFields =>
    exact mapExtra_keys "LinkedIssueFields" LinkedIssueFields.declared
      LinkedIssueFields.core LinkedIssueFields.withExtra
      LinkedIssueFields.extra (fun _ _ => rfl) entries ex h k
  case issueLinkType =>
    exact mapExtra_keys "IssueLinkType" IssueLinkType.declared
      IssueLinkType.core IssueLinkType.withExtra IssueLinkType.extra
      (fun _ _ => rfl) entries ex h k
  case votes =>
    exact mapExtra_keys "Votes" Votes.declared Votes.core Votes.withExtra
      Votes.extra (fun _ _ => rfl) entries ex h k
  case avatarUrls =>
    exact mapExtra_keys "AvatarUrls" AvatarUrls.declared AvatarUrls.core
      AvatarUrls.withExtra AvatarUrls.extra (fun _ _ => rfl) entries ex h k
  case condensedIssue =>
    exact mapExtra_keys "CondensedIssue" CondensedIssue.declared
      CondensedIssue.core CondensedIssue.withExtra CondensedIssue.extra
      (fun _ _ => rfl) entries ex h k
  case condensedFields =>
    exact mapExtra_keys "CondensedFields" CondensedFields.declared
      CondensedFields.core CondensedFields.withExtra CondensedFields.extra
      (fun _ _ => rfl) entries ex h k
  case visibility =>
    exact mapExtra_keys "Visibility" Visibility.declared Visibility.core
      Visibility.withExtra Visibility.extra (fun _ _ => rfl) entries ex h k

/-- Witness for C3, instantiated at an `AvatarUrls` object with one custom
key. -/
theorem c3_overflow_exact_witness :
    keyMem [("custom", Json.str "x")] "custom" =
      (keyMem (avatarDoc ++ [("custom", Json.str "x")]) "custom" &&
        !((entityDeclared EntityKind.avatarUrls).contains "custom")) :=
  c3_overflow_exact EntityKind.avatarUrls
    (avatarDoc ++ [("custom", Json.str "x")]) [("custom", Json.str "x")]
    rfl "custom"

/-- C2: for every entity type (hence at every nesting depth), decoding a JSON
object containing its declared fields with valid values plus arbitrary extra
keys and then re-serializing the decoded record reproduces every extra key
with its original name and value. -/
theorem c2_overflow_roundtrip (e : EntityKind)
    (entries : List (String × Json)) (out : Json)
    (hnod : NodupKeys entries)
    (h : entityDecSer e (.obj entries) = .ok out)
    (k : String) (v : Json)
    (hkv : lookupJ entries k = some v)
    (hk : (entityDeclared e).contains k = false) :
    ∃ es, out = .obj es ∧ lookupJ es k = some v := by
  cases e
  case jqlResults =>
    exact mapSer_roundtrip "JqlResults" JqlResults.declared JqlResults.core
      JqlResults.withExtra JqlResults.extra JqlResults.pre (fun _ _ => rfl)
      (fun _ => rfl) entries out hnod h k v hkv hk
  case issue =>
    exact mapSer_roundtrip "Issue" Issue.declared Issue.core Issue.withExtra
      Issue.extra Issue.pre (fun _ _ => rfl) (fun _ => rfl) entries out hnod
      h k v hkv hk
  case fields =>
    exact mapSer_roundtrip "Fields" Fields.declared Fields.core
      Fields.withExtra Fields.extra Fields.pre (fun _ _ => rfl)
      (fun _ => rfl) entries out hnod h k v hkv hk
  case user =>
    exact mapSer_roundtrip "User" User.declared User.core User.withExtra
      User.extra User.pre (fun _ _ => rfl) (fun _ => rfl) entries out hnod
      h k v hkv hk
  case version =>
    exact mapSer_roundtrip "Version" Version.declared Version.core
      Version.withExtra Version.extra Version.pre (fun _ _ => rfl)
      (fun _ => rfl) entries out hnod h k v hkv hk
  case status =>
    exact mapSer_roundtrip "Status" Status.declared Status.core
      Status.withExtra Status.extra Status.pre (fun _ _ => rfl)
      (fun _ => rfl) entries out hnod h k v hkv hk
  case statusCategory =>
    exact mapSer_roundtrip "StatusCategory" StatusCategory.declared
      StatusCategory.core StatusCategory.withExtra StatusCategory.extra
      StatusCategory.pre (fun _ _ => rfl) (fun _ => rfl) entries out hnod
      h k v hkv hk
  case resolution =>
    exact mapSer_roundtrip "Resolution" Resolution.declared Resolution.core
      Resolution.withExtra Resolution.extra Resolution.pre (fun _ _ => rfl)
      (fun _ => rfl) entries out hnod h k v hkv hk
  case issueType =>
    exact mapSer_roundtrip "IssueType" IssueType.declared IssueType.core
      IssueType.withExtra IssueType.extra IssueType.pre (fun _ _ => rfl)
      (fun _ => rfl) entries out hnod h k v hkv hk
  case project =>
    exact mapSer_roundtrip "Project" Project.declared Project.core
      Project.withExtra Project.extra Project.pre (fun _ _ => rfl)
      (fun _ => rfl) entries out hnod h k v hkv hk
  case projectCategory =>
    exact mapSer_roundtrip "ProjectCategory" ProjectCategory.declared
      ProjectCategory.core ProjectCategory.withExtra ProjectCategory.extra
      ProjectCategory.pre (fun _ _ => rfl) (fun _ => rfl) entries out hnod
      h k v hkv hk
  case priority =>
    exact mapSer_roundtrip "Priority" Priority.declared Priority.core
      Priority.withExtra Priority.extra Priority.pre (fun _ _ => rfl)
      (fun _ => rfl) entries out hnod h k v hkv hk
  case component =>
    exact mapSer_roundtrip "Component" Component.declared Component.core
      Component.withExtra Component.extra Component.pre (fun _ _ => rfl)
      (fun _ => rfl) entries out hnod h k v hkv hk
  case watches =>
    exact mapSer_roundtrip "Watches" Watches.declared Watches.core
      Watches.withExtra Watches.extra Watches.pre (fun _ _ => rfl)
      (fun _ => rfl) entries out hnod h k v hkv hk
  case progress =>
    exact mapSer_roundtrip "Progress" Progress.declared Progress.core
      Progress.withExtra Progress.extra Progress.pre (fun _ _ => rfl)
      (fun _ => rfl) entries out hnod h k v hkv hk
  case comment =>
    exact mapSer_roundtrip "Comment" Comment.declared Comment.core
      Comment.withExtra Comment.extra Comment.pre (fun _ _ => rfl)
      (fun _ => rfl) entries out hnod h k v hkv hk
  case comments =>
    exact mapSer_roundtrip "Comments" Comments.declared Comments.core
      Comments.withExtra Comments.extra Comments.pre (fun _ _ => rfl)
      (fun _ => rfl) entries out hnod h k v hkv hk
  case issueLink =>
    exact mapSer_roundtrip "IssueLink" IssueLink.declared IssueLink.core
      IssueLink.withExtra IssueLink.extra IssueLink.pre (fun _ _ => rfl)
      (fun _ => rfl) entries out hnod h k v hkv hk
  case linkedIssue =>
    exact mapSer_roundtrip "LinkedIssue" LinkedIssue.declared
      LinkedIssue.core LinkedIssue.withExtra LinkedIssue.extra
      LinkedIssue.pre (fun _ _ => rfl) (fun _ => rfl) entries out hnod
      h k v hkv hk
  case linkedIssueFields =>
    exact mapSer_roundtrip "LinkedIssueFields" LinkedIssueFields.declared
      LinkedIssueFields.core LinkedIssueFields.withExtra
      LinkedIssueFields.extra LinkedIssueFields.pre (fun _ _ => rfl)
      (fun _ => rfl) entries out hnod h k v hkv hk
  case issueLinkType =>
    exact mapSer_roundtrip "IssueLinkType" IssueLinkType.declared
      IssueLinkType.core IssueLinkType.withExtra IssueLinkType.extra
      IssueLinkType.pre (fun _ _ => rfl) (fun _ => rfl) entries out hnod
      h k v hkv hk
  case votes =>
    exact mapSer_roundtrip "Votes" Votes.declared Votes.core Votes.withExtra
      Votes.extra Votes.pre (fun _ _ => rfl) (fun _ => rfl) entries out hnod
      h k v hkv hk
  case avatarUrls =>
    exact mapSer_roundtrip "AvatarUrls" AvatarUrls.declared AvatarUrls.core
      AvatarUrls.withExtra AvatarUrls.extra AvatarUrls.pre (fun _ _ => rfl)
      (fun _ => rfl) entries out hnod h k v hkv hk
  case condensedIssue =>
    exact mapSer_roundtrip "CondensedIssue" CondensedIssue.declared
      CondensedIssue.core CondensedIssue.withExtra CondensedIssue.extra
      CondensedIssue.pre (fun _ _ => rfl) (fun _ => rfl) entries out hnod
      h k v hkv hk
  case condensedFields =>
    exact mapSer_roundtrip "CondensedFields" CondensedFields.declared
      CondensedFields.core CondensedFields.withExtra CondensedFields.extra
      CondensedFields.pre (fun _ _ => rfl) (fun _ => rfl) entries out hnod
      h k v hkv hk
  case visibility =>
    exact mapSer_roundtrip "Visibility" Visibility.declared Visibility.core
      Visibility.withExtra Visibility.extra Visibility.pre (fun _ _ => rfl)
      (fun _ => rfl) entries out hnod h k v hkv hk

/-- Witness for C2, instantiated at a `Watches` object with one custom key. -/
theorem c2_overflow_roundtrip_witness :
    ∃ es,
      (entityDecSer EntityKind.watches
          (.obj (watchesDoc ++ [("custom", Json.str "x")]))).toOption.getD
        Json.null = .obj es ∧
      lookupJ es "custom" = some (Json.str "x") :=
  c2_overflow_roundtrip EntityKind.watches
    (watchesDoc ++ [("custom", Json.str "x")])
    ((entityDecSer EntityKind.watches
        (.obj (watchesDoc ++ [("custom", Json.str "x")]))).toOption.getD
      Json.null)
    (by decide) rfl "custom" (Json.str "x") rfl rfl

/-- C9: decoding at the envelope (`JqlResults`) level requires a top-level
`issues` key (`MissingRequiredField` when absent), decodes it as an ordered
sequence of issues preserving order, routes every other top-level key into
the envelope's overflow bag, and is all-or-nothing: a failing issue anywhere
in the sequence fails the whole decode. -/
theorem c9_envelope :
    (∀ entries, lookupJ entries "issues" = none →
      decodeJqlResults (.obj entries) = .error (.missingField "issues")) ∧
    (∀ entries r js, decodeJqlResults (.obj entries) = .ok r →
      lookupJ entries "issues" = some (.arr js) →
      decodeElems decodeIssue js = .ok r.issues ∧
      r.issues.length = js.length ∧
      (∀ i (h1 : i < js.length) (h2 : i < r.issues.length),
        decodeIssue (js.get ⟨i, h1⟩) = .ok (r.issues.get ⟨i, h2⟩)) ∧
      (∀ k, keyMem r.extra k =
        (keyMem entries k && !(JqlResults.declared.contains k)))) ∧
    (∀ entries js, lookupJ entries "issues" = some (.arr js) →
      (∃ j ∈ js, isErrB (decodeIssue j) = true) →
      isErrB (decodeJqlResults (.obj entries)) = true) := by
  refine ⟨?_, ?_, ?_⟩
  · intro entries hnone
    have hnokey : ∀ k, JqlResults.declared.contains k = true →
        keyMem entries k = false := by
      intro k hk
      have hkeq : k = "issues" := by
        simpa [JqlResults.declared] using hk
      subst hkeq
      simp [keyMem, hnone]
    obtain ⟨extra, hex⟩ :=
      splitFieldsAux_ok_of_nodeclared JqlResults.declared entries [] [] hnokey
    have hsplit : splitFields JqlResults.declared entries = .ok ([], extra) :=
      hex
    simp only [decodeJqlResults, decodeStruct, hsplit]
    rfl
  · intro entries r js hok hlook
    obtain ⟨seen, extra, b, hs, hc, hr⟩ :=
      decodeStruct_inv "JqlResults" JqlResults.declared JqlResults.core
        JqlResults.withExtra entries r hok
    have hseen : lookupJ seen "issues" = lookupJ entries "issues" := by
      have := splitFieldsAux_seen_lookup JqlResults.declared entries [] []
        seen extra hs "issues" (by decide)
      simpa [lookupJ, oElse] using this
    have hreq : reqWith seen "issues" (decodeVec decodeIssue) =
        decodeElems decodeIssue js := by
      unfold reqWith
      rw [hseen, hlook]
      rfl
    unfold JqlResults.core at hc
    rw [hreq] at hc
    cases hd : decodeElems decodeIssue js with
    | error e => rw [hd] at hc; exact Except.noConfusion hc
    | ok issues =>
      rw [hd] at hc
      have hb : ({ issues := issues, extra := [] } : JqlResults) = b :=
        Except.ok.inj hc
      subst hb
      subst hr
      refine ⟨rfl, ?_, ?_, ?_⟩
      · exact (decodeElems_ok decodeIssue js issues hd).1
      · exact (decodeElems_ok decodeIssue js issues hd).2
      · intro k
        exact decodeStruct_extra_keys "JqlResults" JqlResults.declared
          JqlResults.core JqlResults.withExtra JqlResults.extra
          (fun _ _ => rfl) entries _ hok k
  · intro entries js hlook herrs
    have herr2 : isErrB (decodeElems decodeIssue js) = true :=
      decodeElems_err decodeIssue js herrs
    cases hsplit : splitFields JqlResults.declared entries with
    | error e =>
      simp only [isErrB, decodeJqlResults, decodeStruct, hsplit]
    | ok pr =>
      obtain ⟨seen, extra⟩ := pr
      have hseen : lookupJ seen "issues" = lookupJ entries "issues" := by
        have := splitFieldsAux_seen_lookup JqlResults.declared entries [] []
          seen extra hsplit "issues" (by decide)
        simpa [lookupJ, oElse] using this
      have hreq : reqWith seen "issues" (decodeVec decodeIssue) =
          decodeElems decodeIssue js := by
        unfold reqWith
        rw [hseen, hlook]
        rfl
      cases hd : decodeElems decodeIssue js with
      | ok as => rw [hd] at herr2; cases herr2
      | error e =>
        have hcore : JqlResults.core seen = .error e := by
          unfold JqlResults.core
          rw [hreq, hd]
          rfl
        simp only [decodeJqlResults, decodeStruct, hsplit, hcore]
        rfl

/-- Witness for C9, instantiated at a top-level object that carries only
pagination metadata and no `issues` key. -/
theorem c9_envelope_witness :
    decodeJqlResults (.obj [("total", Json.num 1)]) =
      .error (.missingField "issues") :=
  c9_envelope.1 [("total", Json.num 1)] rfl

/-- C4: for every entity, the sample otherwise-valid object decodes
successfully, and omitting any one required declared field's key (required =
not wrapped in `Option`) makes the decode fail with `MissingRequiredField`
naming that field. -/
theorem c4_missing_required (e : EntityKind) :
    isOkB (entityDecodeU e (.obj (entityValidDoc e))) = true ∧
    (entityRequired e).all (fun k =>
      isMissingE k
        (entityDecodeU e (.obj (eraseKey (entityValidDoc e) k)))) = true := by
  cases e <;> exact ⟨rfl, rfl⟩

/-- C1 as stated is false on the code: with `Fields.summary` present as
explicit JSON null the decode fails, but not with the
`MissingRequiredField "summary"` error that an absent key produces — the
null case is an invalid-type error, so null and absent are distinguishable
by error kind. -/
theorem c1_counterexample :
    isErrB (decodeFields (.obj (setKey fieldsDoc "summary" Json.null))) =
      true ∧
    isMissingE "summary"
      (decodeFields (.obj (setKey fieldsDoc "summary" Json.null))) = false ∧
    isMissingE "summary"
      (decodeFields (.obj (eraseKey fieldsDoc "summary"))) = true :=
  ⟨rfl, rfl, rfl⟩

/-- C1 (amended): decoding with an explicit JSON null for any required
declared field (non-collection or collection) fails, but with a
`ShapeMismatch` (invalid-type) error rather than the `MissingRequiredField`
error produced by an absent key, for every entity and every required
field. -/
theorem c1_null_required_shape_error (e : EntityKind) :
    (entityRequired e).all (fun k =>
      isShapeE
        (entityDecodeU e (.obj (setKey (entityValidDoc e) k Json.null)))) =
      true := by
  cases e <;> exact rfl

/-- C5: each declared collection field of `Fields` (labels, versions,
fixVersions, components, issuelinks, subtasks) decodes an empty JSON array
to an empty sequence, fails with `MissingRequiredField` when its key is
absent, and fails with a shape error when its value is JSON null. -/
theorem c5_collections :
    okSat (decodeFields (.obj fieldsDoc)) (fun r =>
      r.labels.isEmpty && r.versions.isEmpty && r.fix_versions.isEmpty &&
      r.components.isEmpty && r.issuelinks.isEmpty && r.subtasks.isEmpty) =
      true ∧
    (["labels", "versions", "fixVersions", "components", "issuelinks",
      "subtasks"].all (fun k =>
        isMissingE k (decodeFields (.obj (eraseKey fieldsDoc k)))) = true) ∧
    (["labels", "versions", "fixVersions", "components", "issuelinks",
      "subtasks"].all (fun k =>
        isShapeE (decodeFields (.obj (setKey fieldsDoc k Json.null)))) =
        true) :=
  ⟨rfl, rfl, rfl⟩

/-- C6: `Version.release_date` accepts exactly year-month-day strings:
`"2024-01-15"` decodes to the calendar date 2024-01-15, the full timestamp
`"2024-01-15T10:00:00Z"` fails with `ShapeMismatch` for `releaseDate`, and
that same full-timestamp string decodes successfully for `Fields.created`
and `Fields.updated`. -/
theorem c6_date_contracts :
    okSat (decodeVersion (.obj (versionDoc ++
        [("releaseDate", Json.str "2024-01-15")])))
      (fun r => r.release_date == some ⟨2024, 1, 15⟩) = true ∧
    isShapeE (decodeVersion (.obj (versionDoc ++
        [("releaseDate", Json.str tsStr)]))) = true ∧
    okSat (decodeFields (.obj fieldsDoc)) (fun r =>
      r.created == ⟨2024, 1, 15, 10, 0, 0, 0, 0⟩ &&
      r.updated == ⟨2024, 1, 15, 10, 0, 0, 0, 0⟩) = true :=
  ⟨rfl, rfl, rfl⟩

/-- C7: the two reduced issue shapes keep different contracts for the same
field name: a `LinkedIssueFields` object missing `priority` decodes
successfully (priority is optional there), while a `CondensedFields` object
missing `priority` fails with `MissingRequiredField` (priority is required
there). -/
theorem c7_reduced_shapes :
    okSat (decodeLinkedIssueFields (.obj linkedIssueFieldsDoc))
      (fun r => r.priority.isNone) = true ∧
    isMissingE "priority"
      (decodeCondensedFields
        (.obj (eraseKey condensedFieldsDoc "priority"))) = true :=
  ⟨rfl, rfl⟩

/-- C8: for every optional declared field of every entity, decoding a
document in which the field is wholly absent and decoding the same document
with the field present as explicit JSON null yield equal decoded records —
the absent-versus-null distinction is not observable past decode. -/
theorem c8_null_absent_equal :
    nullAbsentAgrees decodeFields fieldsDoc "lastViewed" ∧
    nullAbsentAgrees decodeFields fieldsDoc "assignee" ∧
    nullAbsentAgrees decodeFields fieldsDoc "description" ∧
    nullAbsentAgrees decodeFields fieldsDoc "duedate" ∧
    nullAbsentAgrees decodeFields fieldsDoc "timeestimate" ∧
    nullAbsentAgrees decodeFields fieldsDoc "aggregatetimeestimate" ∧
    nullAbsentAgrees decodeFields fieldsDoc "timeoriginalestimate" ∧
    nullAbsentAgrees decodeFields fieldsDoc "timespent" ∧
    nullAbsentAgrees decodeFields fieldsDoc "aggregatetimespent" ∧
    nullAbsentAgrees decodeFields fieldsDoc "aggregatetimeoriginalestimate" ∧
    nullAbsentAgrees decodeFields fieldsDoc "archiveddate" ∧
    nullAbsentAgrees decodeFields fieldsDoc "archivedby" ∧
    nullAbsentAgrees decodeFields fieldsDoc "resolution" ∧
    nullAbsentAgrees decodeFields fieldsDoc "resolutiondate" ∧
    nullAbsentAgrees decodeFields fieldsDoc "comment" ∧
    nullAbsentAgrees decodeFields fieldsDoc "parent" ∧
    nullAbsentAgrees decodeUser userDoc "emailAddress" ∧
    nullAbsentAgrees decodeVersion versionDoc "description" ∧
    nullAbsentAgrees decodeVersion versionDoc "releaseDate" ∧
    nullAbsentAgrees decodeComponent componentDoc "description" ∧
    nullAbsentAgrees decodeComment commentDoc "visibility" ∧
    nullAbsentAgrees decodeIssueLink issueLinkDoc "outwardIssue" ∧
    nullAbsentAgrees decodeIssueLink issueLinkDoc "inwardIssue" ∧
    nullAbsentAgrees decodeLinkedIssueFields linkedIssueFieldsDoc
      "priority" :=
  ⟨rfl, rfl, rfl, rfl, rfl, rfl, rfl, rfl, rfl, rfl, rfl, rfl, rfl, rfl,
   rfl, rfl, rfl, rfl, rfl, rfl, rfl, rfl, rfl, rfl⟩

/-- C10: beyond the fields the spec enumerates, the code makes `workratio`,
`watches` and `votes` required fields of `Fields`: the sample field set
decodes, and dropping any one of these three keys fails with
`MissingRequiredField` for it. -/
theorem c10_undocumented_required :
    isOkB (decodeFields (.obj fieldsDoc)) = true ∧
    (["workratio", "watches", "votes"].all (fun k =>
      isMissingE k (decodeFields (.obj (eraseKey fieldsDoc k)))) = true) :=
  ⟨rfl, rfl⟩

end Jira
